import Mathlib

/-!
# kube-ovn: IPAM registry and initialization driver

A shallow embedding of `pkg/ipam/ipam.go` (the IPAM registry) and of
`pkg/controller/init.go` (the bring-up sequence), with theorems about them.

Conventions of the embedding.

* Go strings are `String`; `strings.Split` is `Split`, defined by structural
  recursion on the characters.
* A Go `map[K]V` is an association list `GoMap K V`: lookup finds the first
  entry of a key, assignment replaces that entry in place or appends a new one.
  Iteration (`range`) visits the entries in list order; Go leaves the order
  unspecified.
* A Go `error` is `Option GoError` (`none` is `nil`).
* Pointers to subnets are replaced by values: a method that mutates a subnet in
  place returns the new subnet, and the registry stores it back under its name.
* A run-time panic (index out of range) is the result `none` of a function
  returning `Option`.
* Logging (`klog`) and locking have no counterpart: the model is sequential.
-/

namespace KubeOvn

/-! ## Go runtime: errors, strings, maps -/

/-- Go `error` values that occur in the two source files: the four sentinel
errors of package `ipam`, API errors (with `k8serrors.IsNotFound` separating the
not-found ones) and errors built by `fmt.Errorf`. -/
inductive GoError where
  | ErrOutOfRange
  | ErrConflict
  | ErrNoAvailable
  | ErrInvalidCIDR
  | notFound (what : String)
  | api (msg : String)
  | errorf (msg : String)
  deriving DecidableEq, Repr

/-- Predicate `k8serrors.IsNotFound`. -/
def IsNotFound : GoError → Bool
  | .notFound _ => true
  | _ => false

/-- Worker of `Split`: `cur` holds the characters of the current piece in
reverse order. -/
def splitChars (sep : Char) : List Char → List Char → List (List Char)
  | cur, [] => [cur.reverse]
  | cur, c :: cs =>
    if c = sep then cur.reverse :: splitChars sep [] cs
    else splitChars sep (c :: cur) cs

/-- Go `strings.Split(s, sep)` for a one-character separator: the pieces of `s`
between the occurrences of `sep`; always at least one piece. -/
def Split (s : String) (sep : Char) : List String :=
  (splitChars sep [] s.data).map String.mk

/-- Go map as association list. -/
abbrev GoMap (κ : Type) (ν : Type) := List (κ × ν)

namespace GoMap

variable {κ ν : Type} [DecidableEq κ]

/-- Lookup `m[k]` in its two-valued form `v, ok := m[k]`. -/
def get? (m : GoMap κ ν) (k : κ) : Option ν :=
  match m with
  | [] => none
  | (k', v) :: rest => if k' = k then some v else get? rest k

/-- Assignment `m[k] = v`. -/
def set (m : GoMap κ ν) (k : κ) (v : ν) : GoMap κ ν :=
  match m with
  | [] => [(k, v)]
  | (k', v') :: rest => if k' = k then (k, v) :: rest else (k', v') :: set rest k v

/-- Builtin `delete(m, k)`. -/
def delete (m : GoMap κ ν) (k : κ) : GoMap κ ν :=
  m.filter (fun e => decide (e.1 ≠ k))

/-- The keys, in iteration order. -/
def keys (m : GoMap κ ν) : List κ := m.map Prod.fst

end GoMap

/-! ## Data model of package `ipam` -/

/-- Go `type IP string`. -/
abbrev IP := String

/-- Inclusive range of addresses. -/
structure IPRange where
  Start : IP
  End : IP
  deriving DecidableEq, Repr

/-- Go `type IPRangeList []*IPRange`. -/
abbrev IPRangeList := List IPRange

/-- Go `net.IPNet`: address bytes and mask bytes. -/
structure IPNet where
  IP : List Nat
  Mask : List Nat
  deriving DecidableEq, Repr

/-- Values of the protocol constants of package `kubeovnv1`. -/
def ProtocolIPv4 : String := "IPv4"

/-- See `ProtocolIPv4`. -/
def ProtocolIPv6 : String := "IPv6"

/-- See `ProtocolIPv4`. -/
def ProtocolDual : String := "Dual"

/-- Modelled from the spec: the declaration of `Subnet` (file `subnet.go`) is
not among the sources. The fields are the ones `ipam.go` reads and writes,
completed by the data model of the spec (per-family `IPToNic`). -/
structure Subnet where
  Name : String
  Protocol : String
  V4CIDR : Option IPNet
  V4FreeIPList : IPRangeList
  V4ReleasedIPList : IPRangeList
  V4ReservedIPList : IPRangeList
  V4NicToIP : GoMap String IP
  V4IPToPod : GoMap IP String
  V4IPToNic : GoMap IP String
  V6CIDR : Option IPNet
  V6FreeIPList : IPRangeList
  V6ReleasedIPList : IPRangeList
  V6ReservedIPList : IPRangeList
  V6NicToIP : GoMap String IP
  V6IPToPod : GoMap IP String
  V6IPToNic : GoMap IP String
  NicToMac : GoMap String String
  PodToNicList : GoMap String (List String)
  deriving DecidableEq, Repr

/-- Go `type SubnetAddress struct`. The pointer to the subnet is replaced by the
value of the subnet at the time of the query. -/
structure SubnetAddress where
  Subnet : Subnet
  Ip : String
  Mac : String
  deriving DecidableEq, Repr

/-- Go `type IPAM struct`: the registry of subnets by name. -/
structure IPAM where
  Subnets : GoMap String Subnet
  deriving DecidableEq, Repr

/-- Go `NewIPAM`. -/
def NewIPAM : IPAM := { Subnets := [] }

/-- The functions `ipam.go` calls whose code is not among the sources: Go
standard library (`net`), package `util`, and the methods of `Subnet`. They are
parameters of the embedding; every theorem stated for all `PoolOps` holds
whatever these functions do. -/
structure PoolOps where
  /-- Go `net.ParseCIDR`, second result (`none` when the error is not nil). -/
  ParseCIDR : String → Option IPNet
  /-- Go `(*net.IPNet).String`. -/
  IPNetString : IPNet → String
  /-- From package util: `util.ExpandExcludeIPs(excludeIps, cidr)`. -/
  ExpandExcludeIPs : List String → String → List String
  /-- From package util: `util.CheckProtocol(address)`. -/
  CheckProtocol : String → String
  /-- From package util: `util.SplitIpsByProtocol(excludeIps)`. -/
  SplitIpsByProtocol : List String → List String × List String
  /-- From package util: `util.FirstIP(cidr)`, first result. -/
  FirstIP : String → String
  /-- From package util: `util.LastIP(cidr)`, first result. -/
  LastIP : String → String
  /-- Constructor `NewSubnet(name, cidrStr, excludeIps)`. -/
  NewSubnet : String → String → List String → Except GoError Subnet
  /-- Helper `convertExcludeIps(excludeIps)`. -/
  convertExcludeIps : List String → IPRangeList
  /-- Method `subnet.joinFreeWithReserve()`. -/
  joinFreeWithReserve : Subnet → Subnet
  /-- Method `subnet.GetRandomAddress(podName, nicName, skippedAddrs)`. -/
  GetRandomAddress : Subnet → String → String → List String →
    (IP × IP × String × Option GoError) × Subnet
  /-- Method `subnet.getV4RandomAddress(podName, nicName, skippedAddrs)`. -/
  getV4RandomAddress : Subnet → String → String → List String →
    (IP × IP × String × Option GoError) × Subnet
  /-- Method `subnet.getV6RandomAddress(podName, nicName, skippedAddrs)`. -/
  getV6RandomAddress : Subnet → String → String → List String →
    (IP × IP × String × Option GoError) × Subnet
  /-- Method `subnet.GetStaticAddress(podName, nicName, ip, mac, force,
  checkConflict)`. -/
  GetStaticAddress : Subnet → String → String → IP → String → Bool → Bool →
    (IP × String × Option GoError) × Subnet
  /-- Method `subnet.releaseAddr(podName, nicName)`. -/
  releaseAddr : Subnet → String → String → Subnet
  /-- Method `subnet.ReleaseAddress(podName)`. -/
  ReleaseAddress : Subnet → String → Subnet
  /-- Method `subnet.GetPodAddress(podName, nicName)`: v4, v6, mac, protocol. -/
  GetPodAddress : Subnet → String → String → IP × IP × String × String
  /-- Method `subnet.ContainAddress(ip)`. -/
  ContainAddress : Subnet → IP → Bool
  /-- Method `subnet.isIPAssignedToPod(ip)`. -/
  isIPAssignedToPod : Subnet → String → Bool
  /-- Method `subnet.GetPodByIP(ip)`. -/
  GetPodByIP : Subnet → String → List String

/-! ## The registry: `pkg/ipam/ipam.go` -/

/-- Effect of a method that mutated, through its pointer, the subnet stored
under `name`: the new value replaces the old one in the registry. -/
def IPAM.store (ipam : IPAM) (name : String) (subnet : Subnet) : IPAM :=
  { Subnets := ipam.Subnets.set name subnet }

/-- Go `(*IPAM).GetRandomAddress` (ipam.go 40-52). -/
def IPAM.GetRandomAddress (ops : PoolOps) (ipam : IPAM)
    (podName nicName subnetName : String) (skippedAddrs : List String) :
    (String × String × String × Option GoError) × IPAM :=
  match ipam.Subnets.get? subnetName with
  | none => (("", "", "", some GoError.ErrNoAvailable), ipam)
  | some subnet =>
    match ops.GetRandomAddress subnet podName nicName skippedAddrs with
    | ((v4IP, v6IP, mac, err), subnet') =>
      ((v4IP, v6IP, mac, err), ipam.store subnetName subnet')

/-- Go `(*IPAM).ReleaseIPAddressByPodNameAndNicName` (ipam.go 54-64). -/
def IPAM.ReleaseIPAddressByPodNameAndNicName (ops : PoolOps) (ipam : IPAM)
    (podName nicName subnetName : String) : Option GoError × IPAM :=
  match ipam.Subnets.get? subnetName with
  | none => (some GoError.ErrNoAvailable, ipam)
  | some subnet => (none, ipam.store subnetName (ops.releaseAddr subnet podName nicName))

/-- The loop of `(*IPAM).GetStaticAddress` (ipam.go 75-81) over the pieces of
the address string: each piece is allocated in the pool with `force = false` and
the MAC returned for the previous piece; the first error ends the loop. The
result is the error, or the list `ips` and the last MAC. -/
def staticLoop (ops : PoolOps) (podName nicName : String) (checkConflict : Bool) :
    List String → Subnet → String → List IP → Except GoError (List IP × String) × Subnet
  | [], subnet, mac, ips => (Except.ok (ips, mac), subnet)
  | ipStr :: rest, subnet, mac, ips =>
    match ops.GetStaticAddress subnet podName nicName ipStr mac false checkConflict with
    | ((_, _, some err), subnet') => (Except.error err, subnet')
    | ((ipAddr, mac', none), subnet') =>
      staticLoop ops podName nicName checkConflict rest subnet' mac' (ips ++ [ipAddr])

/-- Go `(*IPAM).GetStaticAddress` (ipam.go 66-102). The call of
`checkAndAppendIpsForDual` is commented out in the source and has no counterpart
here. `none` is the panic of `ips[0]` or `ips[1]` out of range. -/
def IPAM.GetStaticAddress (ops : PoolOps) (ipam : IPAM)
    (podName nicName ip mac subnetName : String) (checkConflict : Bool) :
    Option ((String × String × String × Option GoError) × IPAM) :=
  match ipam.Subnets.get? subnetName with
  | none => some (("", "", "", some GoError.ErrNoAvailable), ipam)
  | some subnet =>
    match staticLoop ops podName nicName checkConflict (Split ip ',') subnet mac [] with
    | (Except.error err, subnet') =>
      some (("", "", "", some err), ipam.store subnetName subnet')
    | (Except.ok (ips, mac'), subnet') =>
      if ops.CheckProtocol ip = ProtocolIPv4 then
        some ((ip, "", mac', none), ipam.store subnetName subnet')
      else if ops.CheckProtocol ip = ProtocolIPv6 then
        some (("", ip, mac', none), ipam.store subnetName subnet')
      else if ops.CheckProtocol ip = ProtocolDual then
        match ips[0]?, ips[1]? with
        | some ip0, some ip1 => some ((ip0, ip1, mac', none), ipam.store subnetName subnet')
        | _, _ => none
      else
        some (("", "", "", some GoError.ErrNoAvailable), ipam.store subnetName subnet')

/-- Go `checkAndAppendIpsForDual` (ipam.go 104-124); `none` is the panic of
`ips[0]` on an empty list. -/
def checkAndAppendIpsForDual (ops : PoolOps) (ips : List IP) (podName nicName : String)
    (subnet : Subnet) : Option ((List IP × Option GoError) × Subnet) :=
  if subnet.Protocol ≠ ProtocolDual ∨ ips.length = 2 then
    some ((ips, none), subnet)
  else
    match ips[0]? with
    | none => none
    | some ip0 =>
      if ops.CheckProtocol ip0 = ProtocolIPv4 then
        match ops.getV6RandomAddress subnet podName nicName [] with
        | ((_, ipAddr, _, err), subnet') => some ((ips ++ [ipAddr], err), subnet')
      else if ops.CheckProtocol ip0 = ProtocolIPv6 then
        match ops.getV4RandomAddress subnet podName nicName [] with
        | ((ipAddr, _, _, err), subnet') => some ((ipAddr :: ips, err), subnet')
      else
        some (([], none), subnet)

/-- Go `(*IPAM).ReleaseAddressByPod` (ipam.go 126-132). -/
def IPAM.ReleaseAddressByPod (ops : PoolOps) (ipam : IPAM) (podName : String) : IPAM :=
  { Subnets := ipam.Subnets.map (fun e => (e.1, ops.ReleaseAddress e.2 podName)) }

/-- The loop of `AddOrUpdateSubnet` that parses the blocks (ipam.go 142-148). -/
def parseCidrBlocks (ops : PoolOps) : List String → List IPNet → Except GoError (List IPNet)
  | [], cidrs => Except.ok cidrs
  | cidrBlock :: rest, cidrs =>
    match ops.ParseCIDR cidrBlock with
    | none => Except.error GoError.ErrInvalidCIDR
    | some cidr => parseCidrBlocks ops rest (cidrs ++ [cidr])

/-- The switch of `AddOrUpdateSubnet` on the protocol (ipam.go 150-158): the
pair `(v4cidrStr, v6cidrStr)`; `none` is the panic of `cidrs[0]` or
`cidrs[1]`. -/
def cidrStrings (ops : PoolOps) (protocol : String) (cidrs : List IPNet) :
    Option (String × String) :=
  if protocol = ProtocolDual then
    match cidrs[0]?, cidrs[1]? with
    | some c0, some c1 => some (ops.IPNetString c0, ops.IPNetString c1)
    | _, _ => none
  else if protocol = ProtocolIPv4 then
    match cidrs[0]? with
    | some c0 => some (ops.IPNetString c0, "")
    | none => none
  else if protocol = ProtocolIPv6 then
    match cidrs[0]? with
    | some c0 => some ("", ops.IPNetString c0)
    | none => none
  else some ("", "")

/-- Inner loop of the re-validation (ipam.go 177-181 and 196-200): every pod of
the list is allocated the address again, with `force` and `checkConflict` set;
errors are logged only. -/
def reallocPods (ops : PoolOps) (nicName : String) (ip : IP) (mac : String) :
    List String → Subnet → Subnet
  | [], subnet => subnet
  | podName :: rest, subnet =>
    reallocPods ops nicName ip mac rest
      (ops.GetStaticAddress subnet podName nicName ip mac true true).2

/-- The loop `for nicName, ip := range subnet.V4NicToIP` (ipam.go 174-182). The
keys are those present when the loop starts, in list order; an entry is read
when it is visited and skipped when it has been removed meanwhile. -/
def reallocV4 (ops : PoolOps) : List String → Subnet → Subnet
  | [], subnet => subnet
  | nicName :: rest, subnet =>
    match subnet.V4NicToIP.get? nicName with
    | none => reallocV4 ops rest subnet
    | some ip =>
      reallocV4 ops rest
        (reallocPods ops nicName ip ((subnet.NicToMac.get? nicName).getD "")
          (Split ((subnet.V4IPToPod.get? ip).getD "") ',') subnet)

/-- The loop `for nicName, ip := range subnet.V6NicToIP` (ipam.go 193-201). -/
def reallocV6 (ops : PoolOps) : List String → Subnet → Subnet
  | [], subnet => subnet
  | nicName :: rest, subnet =>
    match subnet.V6NicToIP.get? nicName with
    | none => reallocV6 ops rest subnet
    | some ip =>
      reallocV6 ops rest
        (reallocPods ops nicName ip ((subnet.NicToMac.get? nicName).getD "")
          (Split ((subnet.V6IPToPod.get? ip).getD "") ',') subnet)

/-- The v4 block of the update of an existing subnet (ipam.go 165-183). -/
def updateV4 (ops : PoolOps) (v4cidrStr : String) (v4ExcludeIps : List String)
    (subnet : Subnet) : Subnet :=
  let s1 : Subnet := { subnet with
    V4CIDR := ops.ParseCIDR v4cidrStr
    V4ReservedIPList := ops.convertExcludeIps v4ExcludeIps
    V4FreeIPList := [{ Start := ops.FirstIP v4cidrStr, End := ops.LastIP v4cidrStr }] }
  let s2 : Subnet := { ops.joinFreeWithReserve s1 with V4ReleasedIPList := [] }
  reallocV4 ops s2.V4NicToIP.keys s2

/-- The v6 block of the update of an existing subnet (ipam.go 184-202). -/
def updateV6 (ops : PoolOps) (v6cidrStr : String) (v6ExcludeIps : List String)
    (subnet : Subnet) : Subnet :=
  let s1 : Subnet := { subnet with
    V6CIDR := ops.ParseCIDR v6cidrStr
    V6ReservedIPList := ops.convertExcludeIps v6ExcludeIps
    V6FreeIPList := [{ Start := ops.FirstIP v6cidrStr, End := ops.LastIP v6cidrStr }] }
  let s2 : Subnet := { ops.joinFreeWithReserve s1 with V6ReleasedIPList := [] }
  reallocV6 ops s2.V6NicToIP.keys s2

/-- The update of an existing subnet (ipam.go 164-203). -/
def updateSubnet (ops : PoolOps) (protocol v4cidrStr v6cidrStr : String)
    (v4ExcludeIps v6ExcludeIps : List String) (subnet : Subnet) : Subnet :=
  let s0 : Subnet := { subnet with Protocol := protocol }
  let s1 : Subnet :=
    if protocol = ProtocolDual ∨ protocol = ProtocolIPv4 then
      updateV4 ops v4cidrStr v4ExcludeIps s0
    else s0
  if protocol = ProtocolDual ∨ protocol = ProtocolIPv6 then
    updateV6 ops v6cidrStr v6ExcludeIps s1
  else s1

/-- Go `(*IPAM).AddOrUpdateSubnet` (ipam.go 134-213); `none` is a panic of the
switch on the protocol. -/
def IPAM.AddOrUpdateSubnet (ops : PoolOps) (ipam : IPAM) (name cidrStr : String)
    (excludeIps : List String) : Option (Option GoError × IPAM) :=
  match parseCidrBlocks ops (Split cidrStr ',') [] with
  | Except.error err => some (some err, ipam)
  | Except.ok cidrs =>
    match cidrStrings ops (ops.CheckProtocol cidrStr) cidrs with
    | none => none
    | some (v4cidrStr, v6cidrStr) =>
      match ipam.Subnets.get? name with
      | some subnet =>
        some (none, ipam.store name
          (updateSubnet ops (ops.CheckProtocol cidrStr) v4cidrStr v6cidrStr
            (ops.SplitIpsByProtocol (ops.ExpandExcludeIPs excludeIps cidrStr)).1
            (ops.SplitIpsByProtocol (ops.ExpandExcludeIPs excludeIps cidrStr)).2 subnet))
      | none =>
        match ops.NewSubnet name cidrStr (ops.ExpandExcludeIPs excludeIps cidrStr) with
        | Except.error err => some (some err, ipam)
        | Except.ok subnet => some (none, ipam.store name subnet)

/-- Go `(*IPAM).DeleteSubnet` (ipam.go 215-220). -/
def IPAM.DeleteSubnet (ipam : IPAM) (subnetName : String) : IPAM :=
  { Subnets := ipam.Subnets.delete subnetName }

/-- Body of the loop over the nics of a pod in `GetPodAddress`
(ipam.go 229-238). -/
def podNicAddresses (ops : PoolOps) (subnet : Subnet) (podName nicName : String) :
    List SubnetAddress :=
  match ops.GetPodAddress subnet podName nicName with
  | (v4IP, v6IP, mac, protocol) =>
    if protocol = ProtocolIPv4 then [{ Subnet := subnet, Ip := v4IP, Mac := mac }]
    else if protocol = ProtocolIPv6 then [{ Subnet := subnet, Ip := v6IP, Mac := mac }]
    else if protocol = ProtocolDual then
      [{ Subnet := subnet, Ip := v4IP, Mac := mac }, { Subnet := subnet, Ip := v6IP, Mac := mac }]
    else []

/-- Go `(*IPAM).GetPodAddress` (ipam.go 222-243). -/
def IPAM.GetPodAddress (ops : PoolOps) (ipam : IPAM) (podName : String) : List SubnetAddress :=
  ipam.Subnets.flatMap (fun e =>
    ((e.2.PodToNicList.get? podName).getD []).flatMap (podNicAddresses ops e.2 podName))

/-- Go `(*IPAM).ContainAddress` (ipam.go 245-254). -/
def IPAM.ContainAddress (ops : PoolOps) (ipam : IPAM) (address : String) : Bool :=
  ipam.Subnets.any (fun e => ops.ContainAddress e.2 address)

/-- Go `(*IPAM).IsIPAssignedToPod` (ipam.go 256-265). -/
def IPAM.IsIPAssignedToPod (ops : PoolOps) (ipam : IPAM) (ip subnetName : String) : Bool :=
  match ipam.Subnets.get? subnetName with
  | none => false
  | some subnet => ops.isIPAssignedToPod subnet ip

/-- Go `(*IPAM).GetPodByIP` (ipam.go 267-276); the nil slice is the empty
list. -/
def IPAM.GetPodByIP (ops : PoolOps) (ipam : IPAM) (ip subnetName : String) : List String :=
  match ipam.Subnets.get? subnetName with
  | none => []
  | some subnet => ops.GetPodByIP subnet ip

/-- What a nic holds in a subnet of the registry: its entries in `V4NicToIP` and
`V6NicToIP` (nothing when the subnet does not exist). -/
def IPAM.nicAddresses (ipam : IPAM) (subnetName nicName : String) : Option IP × Option IP :=
  match ipam.Subnets.get? subnetName with
  | none => (none, none)
  | some subnet => (subnet.V4NicToIP.get? nicName, subnet.V6NicToIP.get? nicName)

/-! ## Records and clients used by `pkg/controller/init.go` -/

namespace kubeovnv1

/-- Modelled from the spec: the record types of package `kubeovnv1` are not
among the sources; section 6 of the spec lists their fields. VLAN: `Name`, `ID`,
`Provider`, legacy `VlanId` and `ProviderInterfaceName`. -/
structure VlanSpec where
  ID : Int
  Provider : String
  VlanId : Int
  ProviderInterfaceName : String
  deriving DecidableEq, Repr

/-- VLAN record. -/
structure Vlan where
  Name : String
  Spec : VlanSpec
  deriving DecidableEq, Repr

/-- Modelled from the spec: provider network, `Name` and `DefaultInterface`. -/
structure ProviderNetworkSpec where
  DefaultInterface : String
  deriving DecidableEq, Repr

/-- Provider-network record. -/
structure ProviderNetwork where
  Name : String
  Spec : ProviderNetworkSpec
  deriving DecidableEq, Repr

/-- Modelled from the spec: the semantic fields of a subnet record. -/
structure SubnetSpec where
  Vpc : String
  Default : Bool
  Provider : String
  CIDRBlock : String
  Gateway : String
  DisableGatewayCheck : Bool
  ExcludeIps : List String
  NatOutgoing : Bool
  GatewayType : String
  Protocol : String
  Vlan : String
  LogicalGateway : Bool
  DisableInterConnection : Bool
  deriving DecidableEq, Repr

/-- Subnet record. -/
structure Subnet where
  Name : String
  Spec : SubnetSpec
  deriving DecidableEq, Repr

/-- Modelled from the spec: QoS tier, `Name` and `Priority`. -/
structure HtbQosSpec where
  Priority : String
  deriving DecidableEq, Repr

/-- QoS tier record; `Kind` is the field of `TypeMeta` the source sets. -/
structure HtbQos where
  Kind : String
  Name : String
  Spec : HtbQosSpec
  deriving DecidableEq, Repr

end kubeovnv1

/-- Go `ovs.LogicalRouter`, of which `init.go` reads the name. -/
structure LogicalRouter where
  Name : String
  deriving DecidableEq, Repr

/-- Modelled from the spec: names of the three QoS tiers (constants of package
`util`), `htb-high`, `htb-medium`, `htb-low`. -/
def HtbQosHigh : String := "htb-high"

/-- See `HtbQosHigh`. -/
def HtbQosMedium : String := "htb-medium"

/-- See `HtbQosHigh`. -/
def HtbQosLow : String := "htb-low"

/-- The fields of the configuration read by the bring-up steps. -/
structure Configuration where
  ClusterRouter : String
  EnableExternalVpc : Bool
  NetworkType : String
  DefaultProviderName : String
  DefaultHostInterface : String
  DefaultVlanName : String
  DefaultVlanID : Int
  NodeSwitch : String
  NodeSwitchCIDR : String
  NodeSwitchGateway : String
  DefaultLogicalSwitch : String
  DefaultCIDR : String
  DefaultGateway : String
  DefaultGatewayCheck : Bool
  DefaultExcludeIps : String
  DefaultLogicalGateway : Bool
  deriving DecidableEq, Repr

/-- The southbound client: an operation takes the state `σ` of the world
outside the controller and returns its result with the new state. -/
structure OvnClient (σ : Type) where
  /-- Go `ListLogicalRouter(needVendorFilter, nil)`. -/
  ListLogicalRouter : Bool → σ → Except GoError (List LogicalRouter) × σ
  /-- Go `CreateLogicalRouter(name)`. -/
  CreateLogicalRouter : String → σ → Option GoError × σ

/-- A lister of one kind of record: `Get(name)`. The record is `none` for a nil
pointer. -/
structure Lister (σ : Type) (ρ : Type) where
  Get : String → σ → Except GoError (Option ρ) × σ

/-- The typed API client of one kind of record: `Get(ctx, name, opts)` and
`Create(ctx, record, opts)`, of which the source uses the error only. -/
structure ResourceClient (σ : Type) (ρ : Type) where
  Get : String → σ → Except GoError (Option ρ) × σ
  Create : ρ → σ → Option GoError × σ

/-- Go `c.config.KubeOvnClient.KubeovnV1()`. -/
structure KubeOvnClientset (σ : Type) where
  Subnets : ResourceClient σ kubeovnv1.Subnet
  Vlans : ResourceClient σ kubeovnv1.Vlan
  ProviderNetworks : ResourceClient σ kubeovnv1.ProviderNetwork
  HtbQoses : ResourceClient σ kubeovnv1.HtbQos

/-- The controller as far as the bring-up steps use it. The clients, the
function `formatSubnet` (another file of package `controller`), the function
`util.CheckProtocol` and four constants of packages `util` and `kubeovnv1` are
not among the sources and are parameters. -/
structure Controller (σ : Type) where
  config : Configuration
  ovnClient : OvnClient σ
  KubeOvnClient : KubeOvnClientset σ
  vlansLister : Lister σ kubeovnv1.Vlan
  providerNetworksLister : Lister σ kubeovnv1.ProviderNetwork
  /-- Go `formatSubnet(subnet, c)`. -/
  formatSubnet : kubeovnv1.Subnet → σ → Option GoError × σ
  /-- From package util: `util.CheckProtocol`. -/
  CheckProtocol : String → String
  /-- From package util: `util.NetworkTypeVlan`. -/
  NetworkTypeVlan : String
  /-- From package util: `util.DefaultVpc`. -/
  DefaultVpc : String
  /-- From package util: `util.OvnProvider`. -/
  OvnProvider : String
  /-- From package kubeovnv1: `kubeovnv1.GWDistributedType`. -/
  GWDistributedType : String

/-! ## The bring-up steps: `pkg/controller/init.go` -/

section Init

variable {σ : Type}

/-- The loop of `initClusterRouter` over the listed routers (init.go 175-179):
`true` when one of them has the name. -/
def routerListed (name : String) : List LogicalRouter → Bool
  | [] => false
  | r :: rest => if name = r.Name then true else routerListed name rest

/-- Go `(*Controller).initClusterRouter` (init.go 169-181). -/
def initClusterRouter (c : Controller σ) (s : σ) : Option GoError × σ :=
  match c.ovnClient.ListLogicalRouter c.config.EnableExternalVpc s with
  | (Except.error err, s1) => (some err, s1)
  | (Except.ok lrs, s1) =>
    if routerListed c.config.ClusterRouter lrs then (none, s1)
    else c.ovnClient.CreateLogicalRouter c.config.ClusterRouter s1

/-- Go `(*Controller).initDefaultProviderNetwork` (init.go 344-365). -/
def initDefaultProviderNetwork (c : Controller σ) (s : σ) : Option GoError × σ :=
  match c.providerNetworksLister.Get c.config.DefaultProviderName s with
  | (Except.ok _, s1) => (none, s1)
  | (Except.error err, s1) =>
    if !IsNotFound err then (some err, s1)
    else
      c.KubeOvnClient.ProviderNetworks.Create
        { Name := c.config.DefaultProviderName
          Spec := { DefaultInterface := c.config.DefaultHostInterface } } s1

/-- The record built by `initDefaultVlan` (init.go 390-396); the legacy fields
keep their zero values. -/
def defaultVlan (c : Controller σ) : kubeovnv1.Vlan :=
  { Name := c.config.DefaultVlanName
    Spec := { ID := c.config.DefaultVlanID
              Provider := c.config.DefaultProviderName
              VlanId := 0
              ProviderInterfaceName := "" } }

/-- Go `(*Controller).initDefaultVlan` (init.go 367-400). -/
def initDefaultVlan (c : Controller σ) (s : σ) : Option GoError × σ :=
  if c.config.NetworkType ≠ c.NetworkTypeVlan then (none, s)
  else
    match initDefaultProviderNetwork c s with
    | (some err, s1) => (some err, s1)
    | (none, s1) =>
      match c.vlansLister.Get c.config.DefaultVlanName s1 with
      | (Except.ok _, s2) => (none, s2)
      | (Except.error err, s2) =>
        if !IsNotFound err then (some err, s2)
        else if c.config.DefaultVlanID < 0 ∨ c.config.DefaultVlanID > 4095 then
          (some (GoError.errorf "the default vlan id is not between 1-4095"), s2)
        else
          c.KubeOvnClient.Vlans.Create (defaultVlan c) s2

/-- The branch `err == nil` shared by `initDefaultLogicalSwitch` and
`initNodeSwitch` (init.go 83-96 and 130-143): a single-stack subnet is
reformatted when the configured CIDR is dual-stack. -/
def upgradeToDual (c : Controller σ) (cidr : String) (subnet : Option kubeovnv1.Subnet)
    (s : σ) : Option GoError × σ :=
  match subnet with
  | none => (none, s)
  | some subnet =>
    if c.CheckProtocol cidr ≠ c.CheckProtocol subnet.Spec.CIDRBlock then
      if c.CheckProtocol cidr = ProtocolDual then
        match c.formatSubnet { subnet with Spec := { subnet.Spec with CIDRBlock := cidr } } s with
        | (some err, s1) => (some err, s1)
        | (none, s1) => (none, s1)
      else (none, s)
    else (none, s)

/-- The record built by `initDefaultLogicalSwitch` (init.go 103-121). -/
def defaultSubnet (c : Controller σ) : kubeovnv1.Subnet :=
  { Name := c.config.DefaultLogicalSwitch
    Spec := {
      Vpc := c.DefaultVpc
      Default := true
      Provider := c.OvnProvider
      CIDRBlock := c.config.DefaultCIDR
      Gateway := c.config.DefaultGateway
      DisableGatewayCheck := !c.config.DefaultGatewayCheck
      ExcludeIps := Split c.config.DefaultExcludeIps ','
      NatOutgoing := true
      GatewayType := c.GWDistributedType
      Protocol := c.CheckProtocol c.config.DefaultCIDR
      Vlan := if c.config.NetworkType = c.NetworkTypeVlan then c.config.DefaultVlanName else ""
      LogicalGateway :=
        if c.config.NetworkType = c.NetworkTypeVlan then c.config.DefaultLogicalGateway else false
      DisableInterConnection := false } }

/-- Go `(*Controller).initDefaultLogicalSwitch` (init.go 81-125). -/
def initDefaultLogicalSwitch (c : Controller σ) (s : σ) : Option GoError × σ :=
  match c.KubeOvnClient.Subnets.Get c.config.DefaultLogicalSwitch s with
  | (Except.ok subnet, s1) => upgradeToDual c c.config.DefaultCIDR subnet s1
  | (Except.error err, s1) =>
    if !IsNotFound err then (some err, s1)
    else c.KubeOvnClient.Subnets.Create (defaultSubnet c) s1

/-- The record built by `initNodeSwitch` (init.go 150-162). -/
def nodeSubnet (c : Controller σ) : kubeovnv1.Subnet :=
  { Name := c.config.NodeSwitch
    Spec := {
      Vpc := c.DefaultVpc
      Default := false
      Provider := c.OvnProvider
      CIDRBlock := c.config.NodeSwitchCIDR
      Gateway := c.config.NodeSwitchGateway
      DisableGatewayCheck := false
      ExcludeIps := Split c.config.NodeSwitchGateway ','
      NatOutgoing := false
      GatewayType := ""
      Protocol := c.CheckProtocol c.config.NodeSwitchCIDR
      Vlan := ""
      LogicalGateway := false
      DisableInterConnection := true } }

/-- Go `(*Controller).initNodeSwitch` (init.go 128-166). -/
def initNodeSwitch (c : Controller σ) (s : σ) : Option GoError × σ :=
  match c.KubeOvnClient.Subnets.Get c.config.NodeSwitch s with
  | (Except.ok subnet, s1) => upgradeToDual c c.config.NodeSwitchCIDR subnet s1
  | (Except.error err, s1) =>
    if !IsNotFound err then (some err, s1)
    else c.KubeOvnClient.Subnets.Create (nodeSubnet c) s1

/-- The switch of `initHtbQos` on the name of the tier (init.go 583-592); an
unknown name leaves the variable `priority` as it is. -/
def htbPriority (qosName priority : String) : String :=
  if qosName = HtbQosHigh then "100"
  else if qosName = HtbQosMedium then "200"
  else if qosName = HtbQosLow then "300"
  else priority

/-- The loop of `initHtbQos` (init.go 572-606). The variables `err` and
`priority` are declared before the loop and live across the iterations; every
path through the body ends the iteration, so the value of `err` at the end of
the loop is the one of the last assignment. -/
def initHtbQosLoop (c : Controller σ) :
    List String → Option GoError → String → σ → Option GoError × σ
  | [], err, _, s => (err, s)
  | qosName :: rest, _, priority, s =>
    match c.KubeOvnClient.HtbQoses.Get qosName s with
    | (Except.ok _, s1) => initHtbQosLoop c rest none priority s1
    | (Except.error err, s1) =>
      if !IsNotFound err then initHtbQosLoop c rest (some err) priority s1
      else
        match c.KubeOvnClient.HtbQoses.Create
            { Kind := "HTBQOS", Name := qosName
              Spec := { Priority := htbPriority qosName priority } } s1 with
        | (err', s2) => initHtbQosLoop c rest err' (htbPriority qosName priority) s2

/-- Go `(*Controller).initHtbQos` (init.go 567-608). -/
def initHtbQos (c : Controller σ) (s : σ) : Option GoError × σ :=
  initHtbQosLoop c [HtbQosHigh, HtbQosMedium, HtbQosLow] none "" s

/-- Go `(*Controller).InitOVN` (init.go 22-49). -/
def InitOVN (c : Controller σ) (s : σ) : Option GoError × σ :=
  match initClusterRouter c s with
  | (some err, s1) => (some err, s1)
  | (none, s1) =>
    match initDefaultVlan c s1 with
    | (some err, s2) => (some err, s2)
    | (none, s2) =>
      match initNodeSwitch c s2 with
      | (some err, s3) => (some err, s3)
      | (none, s3) =>
        match initDefaultLogicalSwitch c s3 with
        | (some err, s4) => (some err, s4)
        | (none, s4) =>
          match initHtbQos c s4 with
          | (some err, s5) => (some err, s5)
          | (none, s5) => (none, s5)

end Init

/-! ## Observing the calls of the controller -/

/-- A call of the controller to one of its clients. -/
inductive Call where
  | ListLogicalRouter (needVendorFilter : Bool)
  | CreateLogicalRouter (name : String)
  | ListerGetVlan (name : String)
  | ListerGetProviderNetwork (name : String)
  | GetSubnet (name : String)
  | CreateSubnet (subnet : kubeovnv1.Subnet)
  | GetVlan (name : String)
  | CreateVlan (vlan : kubeovnv1.Vlan)
  | GetProviderNetwork (name : String)
  | CreateProviderNetwork (pn : kubeovnv1.ProviderNetwork)
  | GetHtbQos (name : String)
  | CreateHtbQos (qos : kubeovnv1.HtbQos)
  | formatSubnet (subnet : kubeovnv1.Subnet)
  deriving DecidableEq, Repr

section Traced

variable {σ : Type}

/-- The operation `op` on a world that carries the log of the calls made so far:
same result, same effect on the world, and the call appended to the log. -/
def logged {α : Type} (call : Call) (op : σ → α × σ) (w : σ × List Call) :
    α × (σ × List Call) :=
  ((op w.1).1, ((op w.1).2, w.2 ++ [call]))

/-- The controller `c` with every call to a client written to a log. A theorem
about `c.traced` for all `c` tells which calls the source makes, whatever the
clients answer. -/
def Controller.traced (c : Controller σ) : Controller (σ × List Call) :=
  { config := c.config
    ovnClient := {
      ListLogicalRouter := fun b => logged (Call.ListLogicalRouter b) (c.ovnClient.ListLogicalRouter b)
      CreateLogicalRouter := fun n =>
        logged (Call.CreateLogicalRouter n) (c.ovnClient.CreateLogicalRouter n) }
    KubeOvnClient := {
      Subnets := {
        Get := fun n => logged (Call.GetSubnet n) (c.KubeOvnClient.Subnets.Get n)
        Create := fun r => logged (Call.CreateSubnet r) (c.KubeOvnClient.Subnets.Create r) }
      Vlans := {
        Get := fun n => logged (Call.GetVlan n) (c.KubeOvnClient.Vlans.Get n)
        Create := fun r => logged (Call.CreateVlan r) (c.KubeOvnClient.Vlans.Create r) }
      ProviderNetworks := {
        Get := fun n => logged (Call.GetProviderNetwork n) (c.KubeOvnClient.ProviderNetworks.Get n)
        Create := fun r =>
          logged (Call.CreateProviderNetwork r) (c.KubeOvnClient.ProviderNetworks.Create r) }
      HtbQoses := {
        Get := fun n => logged (Call.GetHtbQos n) (c.KubeOvnClient.HtbQoses.Get n)
        Create := fun r => logged (Call.CreateHtbQos r) (c.KubeOvnClient.HtbQoses.Create r) } }
    vlansLister := { Get := fun n => logged (Call.ListerGetVlan n) (c.vlansLister.Get n) }
    providerNetworksLister := {
      Get := fun n => logged (Call.ListerGetProviderNetwork n) (c.providerNetworksLister.Get n) }
    formatSubnet := fun r => logged (Call.formatSubnet r) (c.formatSubnet r)
    CheckProtocol := c.CheckProtocol
    NetworkTypeVlan := c.NetworkTypeVlan
    DefaultVpc := c.DefaultVpc
    OvnProvider := c.OvnProvider
    GWDistributedType := c.GWDistributedType }

end Traced

/-! ## An in-memory cluster, to run the steps on concrete inputs -/

/-- The records held by an in-memory cluster, and the requests it is set to
refuse: `getErrors` and `createErrors` give, by record name, the error a `Get`
or a `Create` of a QoS tier answers with. -/
structure Cluster where
  routers : List LogicalRouter
  providerNetworks : List kubeovnv1.ProviderNetwork
  vlans : List kubeovnv1.Vlan
  subnets : List kubeovnv1.Subnet
  htbQoses : List kubeovnv1.HtbQos
  getErrors : GoMap String GoError
  createErrors : GoMap String GoError
  deriving DecidableEq, Repr

/-- Lookup of a record by name: the record, or the not-found error. -/
def findRecord {ρ : Type} (name : ρ → String) (key : String) (records : List ρ) :
    Except GoError (Option ρ) :=
  match records.find? (fun r => decide (name r = key)) with
  | some r => Except.ok (some r)
  | none => Except.error (GoError.notFound key)

/-- A controller whose clients read and write an in-memory `Cluster`: `Get`
looks the record up by name, `Create` appends the record, listing the routers
returns them and creating a router adds it. Reformatting a subnet replaces the
stored record. -/
def memController (config : Configuration) (CheckProtocol : String → String) :
    Controller Cluster :=
  { config := config
    ovnClient := {
      ListLogicalRouter := fun _ w => (Except.ok w.routers, w)
      CreateLogicalRouter := fun n w => (none, { w with routers := w.routers ++ [{ Name := n }] }) }
    KubeOvnClient := {
      Subnets := {
        Get := fun n w => (findRecord kubeovnv1.Subnet.Name n w.subnets, w)
        Create := fun r w => (none, { w with subnets := w.subnets ++ [r] }) }
      Vlans := {
        Get := fun n w => (findRecord kubeovnv1.Vlan.Name n w.vlans, w)
        Create := fun r w => (none, { w with vlans := w.vlans ++ [r] }) }
      ProviderNetworks := {
        Get := fun n w => (findRecord kubeovnv1.ProviderNetwork.Name n w.providerNetworks, w)
        Create := fun r w => (none, { w with providerNetworks := w.providerNetworks ++ [r] }) }
      HtbQoses := {
        Get := fun n w =>
          match w.getErrors.get? n with
          | some err => (Except.error err, w)
          | none => (findRecord kubeovnv1.HtbQos.Name n w.htbQoses, w)
        Create := fun r w =>
          match w.createErrors.get? r.Name with
          | some err => (some err, w)
          | none => (none, { w with htbQoses := w.htbQoses ++ [r] }) } }
    vlansLister := { Get := fun n w => (findRecord kubeovnv1.Vlan.Name n w.vlans, w) }
    providerNetworksLister := {
      Get := fun n w => (findRecord kubeovnv1.ProviderNetwork.Name n w.providerNetworks, w) }
    formatSubnet := fun r w =>
      (none, { w with subnets := w.subnets.map (fun r' => if r'.Name = r.Name then r else r') })
    CheckProtocol := CheckProtocol
    NetworkTypeVlan := "vlan"
    DefaultVpc := "ovn-cluster"
    OvnProvider := "ovn"
    GWDistributedType := "distributed" }

/-! ## A concrete pool for the scenarios of the spec

The methods of `Subnet` and the helpers of package `util` are not among the
sources. To run the registry on concrete inputs they are modelled here from
sections 4.A to 4.C of the spec, over the addresses of its scenario 3: the
dual-stack subnet `10.0.0.0/29, fd00::/125`. -/

namespace Scenario

/-- Modelled from the spec: the IP primitive (4.A), a family tag and a numeric
value, tabulated for the sixteen addresses of `10.0.0.0/29` and `fd00::/125`;
the value is the offset in the block and `true` is the v4 family. Text outside
the table does not parse. -/
def addrTable : List (IP × (Bool × Nat)) :=
  [("10.0.0.0", (true, 0)), ("10.0.0.1", (true, 1)), ("10.0.0.2", (true, 2)),
   ("10.0.0.3", (true, 3)), ("10.0.0.4", (true, 4)), ("10.0.0.5", (true, 5)),
   ("10.0.0.6", (true, 6)), ("10.0.0.7", (true, 7)),
   ("fd00::", (false, 0)), ("fd00::1", (false, 1)), ("fd00::2", (false, 2)),
   ("fd00::3", (false, 3)), ("fd00::4", (false, 4)), ("fd00::5", (false, 5)),
   ("fd00::6", (false, 6)), ("fd00::7", (false, 7))]

/-- Parse of an address: family and value. -/
def parseAddr (ip : IP) : Option (Bool × Nat) := GoMap.get? addrTable ip

/-- Text of the address of a family with a value (empty outside the table). -/
def addrText (v4 : Bool) (n : Nat) : IP :=
  match addrTable.find? (fun e => decide (e.2 = (v4, n))) with
  | some e => e.1
  | none => ""

/-- The v4 block `10.0.0.0/29`. -/
def v4Net : IPNet := { IP := [10, 0, 0, 0], Mask := [255, 255, 255, 248] }

/-- The v6 block `fd00::/125`. -/
def v6Net : IPNet :=
  { IP := [253, 0, 0, 0, 0, 0, 0, 0, 0, 0, 0, 0, 0, 0, 0, 0]
    Mask := [255, 255, 255, 255, 255, 255, 255, 255, 255, 255, 255, 255, 255, 255, 255, 248] }

/-- Go `net.ParseCIDR` on the two blocks; other text is refused. -/
def ParseCIDR (s : String) : Option IPNet :=
  if s = "10.0.0.0/29" then some v4Net
  else if s = "fd00::/125" then some v6Net
  else none

/-- Go `(*net.IPNet).String` on the two blocks. -/
def IPNetString (n : IPNet) : String :=
  if n = v4Net then "10.0.0.0/29" else if n = v6Net then "fd00::/125" else ""

/-- The part of an address or CIDR text before the first `/`. -/
def stripMask (s : String) : String := (Split s '/').headD ""

/-- Modelled from the spec: `util.CheckProtocol`. A text is dual when it is a
comma-joined pair of a v4 and a v6 address or CIDR (section 6, `CIDRBlock`),
and has the family of its address otherwise; text that does not parse has no
protocol. -/
def CheckProtocol (address : String) : String :=
  match Split address ',' with
  | [a, b] =>
    match parseAddr (stripMask a), parseAddr (stripMask b) with
    | some (true, _), some (false, _) => ProtocolDual
    | _, _ => ""
  | _ =>
    match parseAddr (stripMask address) with
    | some (true, _) => ProtocolIPv4
    | some (false, _) => ProtocolIPv6
    | none => ""

/-- Modelled from the spec: first host of a block (4.C, `firstHost`). -/
def FirstIP (cidr : String) : String :=
  if cidr = "10.0.0.0/29" then "10.0.0.1" else if cidr = "fd00::/125" then "fd00::1" else ""

/-- Modelled from the spec: last host of a block (4.C, `lastHost`). -/
def LastIP (cidr : String) : String :=
  if cidr = "10.0.0.0/29" then "10.0.0.6" else if cidr = "fd00::/125" then "fd00::6" else ""

/-- Modelled from the spec: `IPRange.Contains` (4.A). -/
def rangeContains (r : IPRange) (ip : IP) : Bool :=
  match parseAddr r.Start, parseAddr r.End, parseAddr ip with
  | some (f1, a), some (f2, b), some (f, n) =>
    decide (f1 = f ∧ f2 = f ∧ a ≤ n ∧ n ≤ b)
  | _, _, _ => false

/-- Membership of an address in a range list. -/
def listContains (l : IPRangeList) (ip : IP) : Bool := l.any (fun r => rangeContains r ip)

/-- What is left of a range after removing one address of it. -/
def rangeRemove (ip : IP) (r : IPRange) : IPRangeList :=
  if rangeContains r ip then
    match parseAddr r.Start, parseAddr r.End, parseAddr ip with
    | some (_, a), some (_, b), some (f, n) =>
      (if a < n then [{ Start := r.Start, End := addrText f (n - 1) }] else []) ++
      (if n < b then [{ Start := addrText f (n + 1), End := r.End }] else [])
    | _, _, _ => [r]
  else [r]

/-- Modelled from the spec: `IPRangeList.Remove(ip)` (4.A), "removes a single
IP, splitting a range if interior". -/
def listRemove (l : IPRangeList) (ip : IP) : IPRangeList := l.flatMap (rangeRemove ip)

/-- The addresses of a range, ascending. -/
def rangeAddrs (r : IPRange) : List IP :=
  match parseAddr r.Start, parseAddr r.End with
  | some (f, a), some (_, b) => (List.range (b + 1 - a)).map (fun i => addrText f (a + i))
  | _, _ => []

/-- The addresses of a range list. -/
def listAddrs (l : IPRangeList) : List IP := l.flatMap rangeAddrs

/-- Modelled from the spec: `IPRangeList.Subtract(other)` (4.A), set
difference. -/
def listSubtract (l other : IPRangeList) : IPRangeList := (listAddrs other).foldl listRemove l

/-- Modelled from the spec: `util.ExpandExcludeIPs`, which "drops out-of-range
entries" (4.C step 1); the `a..b` shorthand is not used in the scenarios. -/
def ExpandExcludeIPs (excludeIps : List String) (cidr : String) : List String :=
  excludeIps.filter (fun ip =>
    (Split cidr ',').any (fun blk =>
      rangeContains { Start := FirstIP blk, End := LastIP blk } ip))

/-- Modelled from the spec: `util.SplitIpsByProtocol`, the v4 and the v6
addresses of a list. -/
def SplitIpsByProtocol (excludeIps : List String) : List String × List String :=
  (excludeIps.filter (fun ip => decide ((parseAddr ip).map Prod.fst = some true)),
   excludeIps.filter (fun ip => decide ((parseAddr ip).map Prod.fst = some false)))

/-- Modelled from the spec: `convertExcludeIps`, "rebuild `Reserved` from
excludes" (4.C step 2), one range for each address. -/
def convertExcludeIps (excludeIps : List String) : IPRangeList :=
  excludeIps.map (fun ip => { Start := ip, End := ip })

/-- Modelled from the spec: `joinFreeWithReserve` "subtracts `Reserved` from
`Free`" (4.B, reserved merge). -/
def joinFreeWithReserve (subnet : Subnet) : Subnet :=
  { subnet with
    V4FreeIPList := listSubtract subnet.V4FreeIPList subnet.V4ReservedIPList
    V6FreeIPList := listSubtract subnet.V6FreeIPList subnet.V6ReservedIPList }

/-- Modelled from the spec: the MAC "generated deterministically from the nic
key" (4.B); the generator itself is not specified. -/
def generateMac (nicName : String) : String := "mac-of-" ++ nicName

/-- The MAC step of an allocation (4.B): an empty request reuses the MAC of the
nic or generates one; otherwise the requested MAC is bound to the nic. -/
def bindMac (subnet : Subnet) (nicName mac : String) : String × Subnet :=
  if mac = "" then
    match subnet.NicToMac.get? nicName with
    | some m => (m, subnet)
    | none =>
      (generateMac nicName,
        { subnet with NicToMac := subnet.NicToMac.set nicName (generateMac nicName) })
  else (mac, { subnet with NicToMac := subnet.NicToMac.set nicName mac })

/-- The nic appended to the nic list of the pod, unless it is there. -/
def pushPodNic (subnet : Subnet) (podName nicName : String) : Subnet :=
  if nicName ∈ (subnet.PodToNicList.get? podName).getD [] then subnet
  else
    { subnet with
      PodToNicList :=
        subnet.PodToNicList.set podName ((subnet.PodToNicList.get? podName).getD [] ++ [nicName]) }

/-- The address recorded for the nic and the pod list `pods`, and taken out of
the free and released lists of its family (4.B, free-list policy). -/
def bindAddr (subnet : Subnet) (v4 : Bool) (nicName : String) (ip : IP) (pods : String) :
    Subnet :=
  if v4 then
    { subnet with
      V4FreeIPList := listRemove subnet.V4FreeIPList ip
      V4ReleasedIPList := listRemove subnet.V4ReleasedIPList ip
      V4NicToIP := subnet.V4NicToIP.set nicName ip
      V4IPToPod := subnet.V4IPToPod.set ip pods
      V4IPToNic := subnet.V4IPToNic.set ip nicName }
  else
    { subnet with
      V6FreeIPList := listRemove subnet.V6FreeIPList ip
      V6ReleasedIPList := listRemove subnet.V6ReleasedIPList ip
      V6NicToIP := subnet.V6NicToIP.set nicName ip
      V6IPToPod := subnet.V6IPToPod.set ip pods
      V6IPToNic := subnet.V6IPToNic.set ip nicName }

/-- Whether the address lies in the host space of the block of its family. -/
def inCIDR (subnet : Subnet) (v4 : Bool) (ip : IP) : Bool :=
  match (if v4 then subnet.V4CIDR else subnet.V6CIDR) with
  | none => false
  | some net =>
    rangeContains { Start := FirstIP (IPNetString net), End := LastIP (IPNetString net) } ip

/-- Modelled from the spec: `Subnet.GetStaticAddress` (4.B). "Requires
`ip ∈ CIDR`; else `OutOfRange`. If the IP is already allocated to a different
pod and `checkConflict=true`, fails with `Conflict`; if `force=true`, rebinds.
If `mac` is empty, assigns or reuses the nic's current MAC." Without
`checkConflict` the pod joins the pod list of the address (scenario 2). The
address returned is the requested one. -/
def GetStaticAddress (subnet : Subnet) (podName nicName : String) (ip : IP) (mac : String)
    (force checkConflict : Bool) : (IP × String × Option GoError) × Subnet :=
  match parseAddr ip with
  | none => ((ip, mac, some GoError.ErrOutOfRange), subnet)
  | some (v4, _) =>
    if !inCIDR subnet v4 ip then ((ip, mac, some GoError.ErrOutOfRange), subnet)
    else
      match (if v4 then subnet.V4IPToPod else subnet.V6IPToPod).get? ip with
      | some pods =>
        if podName ∈ Split pods ',' then
          if force then
            match bindMac (pushPodNic subnet podName nicName) nicName mac with
            | (m, s1) => ((ip, m, none), bindAddr s1 v4 nicName ip podName)
          else
            match bindMac (pushPodNic subnet podName nicName) nicName mac with
            | (m, s1) => ((ip, m, none), s1)
        else if checkConflict then ((ip, mac, some GoError.ErrConflict), subnet)
        else
          match bindMac (pushPodNic subnet podName nicName) nicName mac with
          | (m, s1) => ((ip, m, none), bindAddr s1 v4 nicName ip (pods ++ "," ++ podName))
      | none =>
        match bindMac (pushPodNic subnet podName nicName) nicName mac with
        | (m, s1) => ((ip, m, none), bindAddr s1 v4 nicName ip podName)

/-- The lowest free address of a family that is not skipped; the released list
is used when the free list is empty (4.B, free-list policy). -/
def lowestFree (subnet : Subnet) (v4 : Bool) (skippedAddrs : List String) : Option IP :=
  let free := if v4 then subnet.V4FreeIPList else subnet.V6FreeIPList
  let released := if v4 then subnet.V4ReleasedIPList else subnet.V6ReleasedIPList
  (listAddrs (if free = [] then released else free)).find? (fun ip => decide (ip ∉ skippedAddrs))

/-- Random allocation in one family: the lowest free address, bound to the nic
and the pod. -/
def getRandomOf (v4 : Bool) (subnet : Subnet) (podName nicName : String)
    (skippedAddrs : List String) : (IP × IP × String × Option GoError) × Subnet :=
  match lowestFree subnet v4 skippedAddrs with
  | none => (("", "", "", some GoError.ErrNoAvailable), subnet)
  | some ip =>
    match bindMac (pushPodNic subnet podName nicName) nicName "" with
    | (m, s1) =>
      ((if v4 then ip else "", if v4 then "" else ip, m, none), bindAddr s1 v4 nicName ip podName)

/-- Modelled from the spec: `Subnet.GetRandomAddress` (4.B). "Picks the lowest
free address per required family ...; fails with `NoAvailable` if either
required family is exhausted. ... On dual-stack, allocation is atomic across
both families". -/
def GetRandomAddress (subnet : Subnet) (podName nicName : String)
    (skippedAddrs : List String) : (IP × IP × String × Option GoError) × Subnet :=
  if subnet.Protocol = ProtocolIPv4 then getRandomOf true subnet podName nicName skippedAddrs
  else if subnet.Protocol = ProtocolIPv6 then getRandomOf false subnet podName nicName skippedAddrs
  else
    match getRandomOf true subnet podName nicName skippedAddrs with
    | ((_, _, _, some err), _) => (("", "", "", some err), subnet)
    | ((v4IP, _, _, none), s1) =>
      match getRandomOf false s1 podName nicName skippedAddrs with
      | ((_, _, _, some err), _) => (("", "", "", some err), subnet)
      | ((_, v6IP, m, none), s2) => ((v4IP, v6IP, m, none), s2)

/-- A pod name taken out of a comma-joined pod list. -/
def removePod (pods podName : String) : String :=
  String.intercalate "," ((Split pods ',').filter (fun p => decide (p ≠ podName)))

/-- Release of the address of one family held by the nic: the pod leaves the pod
list of the address; when no pod is left the address moves to the released list
(4.B, "a release appends to `Released`") unless it is reserved. -/
def releaseOf (v4 : Bool) (subnet : Subnet) (podName nicName : String) : Subnet :=
  match (if v4 then subnet.V4NicToIP else subnet.V6NicToIP).get? nicName with
  | none => subnet
  | some ip =>
    let pods := removePod (((if v4 then subnet.V4IPToPod else subnet.V6IPToPod).get? ip).getD "")
      podName
    if pods ≠ "" then
      if v4 then
        { subnet with
          V4NicToIP := subnet.V4NicToIP.delete nicName
          V4IPToPod := subnet.V4IPToPod.set ip pods }
      else
        { subnet with
          V6NicToIP := subnet.V6NicToIP.delete nicName
          V6IPToPod := subnet.V6IPToPod.set ip pods }
    else if v4 then
      { subnet with
        V4NicToIP := subnet.V4NicToIP.delete nicName
        V4IPToPod := subnet.V4IPToPod.delete ip
        V4IPToNic := subnet.V4IPToNic.delete ip
        V4ReleasedIPList :=
          if listContains subnet.V4ReservedIPList ip then subnet.V4ReleasedIPList
          else subnet.V4ReleasedIPList ++ [{ Start := ip, End := ip }] }
    else
      { subnet with
        V6NicToIP := subnet.V6NicToIP.delete nicName
        V6IPToPod := subnet.V6IPToPod.delete ip
        V6IPToNic := subnet.V6IPToNic.delete ip
        V6ReleasedIPList :=
          if listContains subnet.V6ReservedIPList ip then subnet.V6ReleasedIPList
          else subnet.V6ReleasedIPList ++ [{ Start := ip, End := ip }] }

/-- Modelled from the spec: `releaseAddr(pod-id, nic)` "releases a single nic"
(4.B), in both families, with its MAC and its place in the nic list of the
pod. -/
def releaseAddr (subnet : Subnet) (podName nicName : String) : Subnet :=
  let s := releaseOf false (releaseOf true subnet podName nicName) podName nicName
  { s with
    NicToMac := s.NicToMac.delete nicName
    PodToNicList :=
      match ((s.PodToNicList.get? podName).getD []).filter (fun n => decide (n ≠ nicName)) with
      | [] => s.PodToNicList.delete podName
      | nics => s.PodToNicList.set podName nics }

/-- Modelled from the spec: `ReleaseAddress(pod-id)` "releases every nic owned
by the pod across both families" (4.B). -/
def ReleaseAddress (subnet : Subnet) (podName : String) : Subnet :=
  ((subnet.PodToNicList.get? podName).getD []).foldl
    (fun s nicName => releaseAddr s podName nicName) subnet

/-- Modelled from the spec: the addresses and the MAC of a nic, with the
protocol of the subnet. -/
def GetPodAddress (subnet : Subnet) (_podName nicName : String) : IP × IP × String × String :=
  ((subnet.V4NicToIP.get? nicName).getD "", (subnet.V6NicToIP.get? nicName).getD "",
   (subnet.NicToMac.get? nicName).getD "", subnet.Protocol)

/-- Modelled from the spec: `ContainAddress(ip)`, "true iff currently allocated
in this subnet" (4.B). -/
def ContainAddress (subnet : Subnet) (ip : IP) : Bool :=
  (subnet.V4IPToPod.get? ip).isSome || (subnet.V6IPToPod.get? ip).isSome

/-- Modelled from the spec: the pods of an address, from its comma-joined pod
list. -/
def GetPodByIP (subnet : Subnet) (ip : String) : List String :=
  match subnet.V4IPToPod.get? ip, subnet.V6IPToPod.get? ip with
  | some pods, _ => Split pods ','
  | none, some pods => Split pods ','
  | none, none => []

/-- Modelled from the spec: `isIPAssignedToPod(ip)`, "true iff the IP is
allocated and at least one member of its pod list still refers to a live pod"
(4.B); a pod is taken as live while the pool holds a nic list for it. -/
def isIPAssignedToPod (subnet : Subnet) (ip : String) : Bool :=
  (GetPodByIP subnet ip).any (fun p => (subnet.PodToNicList.get? p).isSome)

/-- Modelled from the spec: `NewSubnet`, the pool of a new subnet (3,
lifecycle): the blocks of the families of the protocol, `Reserved` from the
excludes, `Free = [firstHost..lastHost]` minus `Reserved`, nothing allocated. -/
def NewSubnet (name cidrStr : String) (excludeIps : List String) : Except GoError Subnet :=
  if (Split cidrStr ',').any (fun blk => (ParseCIDR blk).isNone) then
    Except.error GoError.ErrInvalidCIDR
  else
    let v4 := (Split cidrStr ',').find? (fun blk => decide (CheckProtocol blk = ProtocolIPv4))
    let v6 := (Split cidrStr ',').find? (fun blk => decide (CheckProtocol blk = ProtocolIPv6))
    Except.ok (joinFreeWithReserve
      { Name := name
        Protocol := CheckProtocol cidrStr
        V4CIDR := v4.bind ParseCIDR
        V4FreeIPList := match v4 with
          | some blk => [{ Start := FirstIP blk, End := LastIP blk }]
          | none => []
        V4ReleasedIPList := []
        V4ReservedIPList := convertExcludeIps (SplitIpsByProtocol excludeIps).1
        V4NicToIP := []
        V4IPToPod := []
        V4IPToNic := []
        V6CIDR := v6.bind ParseCIDR
        V6FreeIPList := match v6 with
          | some blk => [{ Start := FirstIP blk, End := LastIP blk }]
          | none => []
        V6ReleasedIPList := []
        V6ReservedIPList := convertExcludeIps (SplitIpsByProtocol excludeIps).2
        V6NicToIP := []
        V6IPToPod := []
        V6IPToNic := []
        NicToMac := []
        PodToNicList := [] })

/-- The missing functions of `ipam.go`, as modelled above. -/
def ops : PoolOps :=
  { ParseCIDR := ParseCIDR
    IPNetString := IPNetString
    ExpandExcludeIPs := ExpandExcludeIPs
    CheckProtocol := CheckProtocol
    SplitIpsByProtocol := SplitIpsByProtocol
    FirstIP := FirstIP
    LastIP := LastIP
    NewSubnet := NewSubnet
    convertExcludeIps := convertExcludeIps
    joinFreeWithReserve := joinFreeWithReserve
    GetRandomAddress := GetRandomAddress
    getV4RandomAddress := getRandomOf true
    getV6RandomAddress := getRandomOf false
    GetStaticAddress := GetStaticAddress
    releaseAddr := releaseAddr
    ReleaseAddress := ReleaseAddress
    GetPodAddress := GetPodAddress
    ContainAddress := ContainAddress
    isIPAssignedToPod := isIPAssignedToPod
    GetPodByIP := GetPodByIP }

/-- The registry of scenario 3: the dual-stack subnet `s1` with blocks
`10.0.0.0/29` and `fd00::/125`, no exclusion, nothing allocated. -/
def registry : IPAM :=
  match IPAM.AddOrUpdateSubnet ops NewIPAM "s1" "10.0.0.0/29,fd00::/125" [] with
  | some (_, ipam) => ipam
  | none => NewIPAM

/-- The registry of scenario 3 after pod `ns/q` has been given `10.0.0.3` and
`fd00::2` on its nic `q.ns`. -/
def registryQ : IPAM :=
  match IPAM.GetStaticAddress ops registry "ns/q" "q.ns" "10.0.0.3,fd00::2" "" "s1" true with
  | some (_, ipam) => ipam
  | none => registry

/-- A configuration in VLAN mode whose default VLAN id is 0. -/
def config : Configuration :=
  { ClusterRouter := "ovn-cluster"
    EnableExternalVpc := false
    NetworkType := "vlan"
    DefaultProviderName := "provider"
    DefaultHostInterface := "eth1"
    DefaultVlanName := "ovn-vlan"
    DefaultVlanID := 0
    NodeSwitch := "join"
    NodeSwitchCIDR := "fd00::/125"
    NodeSwitchGateway := "fd00::1"
    DefaultLogicalSwitch := "ovn-default"
    DefaultCIDR := "10.0.0.0/29"
    DefaultGateway := "10.0.0.1"
    DefaultGatewayCheck := true
    DefaultExcludeIps := "10.0.0.1"
    DefaultLogicalGateway := false }

/-- The cluster with no record at all and no request refused. -/
def emptyCluster : Cluster :=
  { routers := [], providerNetworks := [], vlans := [], subnets := [], htbQoses := []
    getErrors := [], createErrors := [] }

/-- The controller of `config` on an in-memory cluster. -/
def controller : Controller Cluster := memController config CheckProtocol

end Scenario

end KubeOvn

/-! ## The schema migrators: `initSyncCrdIPs` and `initSyncCrdVlans` -/

namespace KubeOvn

namespace kubeovnv1

/-- Modelled from the spec: the fields of an IP record (section 6); the type is
not among the sources. The three attach lists are parallel. -/
structure IPSpec where
  Namespace : String
  PodName : String
  IPAddress : String
  MacAddress : String
  Subnet : String
  V4IPAddress : String
  V6IPAddress : String
  AttachSubnets : List String
  AttachIPs : List String
  AttachMacs : List String
  deriving DecidableEq, Repr

/-- IP record. -/
structure IP where
  Name : String
  Spec : IPSpec
  deriving DecidableEq, Repr

end kubeovnv1

/-- The clients and the helper the two migrators use, as parameters: an
operation takes the world `σ` and returns its result with the new world. -/
structure MigrationClients (σ : Type) where
  /-- Go `c.vlansLister.List(labels.Everything())`. -/
  ListVlans : σ → Except GoError (List kubeovnv1.Vlan) × σ
  /-- Go `Vlans().Update(ctx, vlan, opts)`, of which the source uses the error. -/
  UpdateVlan : kubeovnv1.Vlan → σ → Option GoError × σ
  /-- Go `IPs().List(ctx, opts)`, the items of the list. -/
  ListIPs : σ → Except GoError (List kubeovnv1.IP) × σ
  /-- Go `IPs().Update(ctx, ip, opts)`, of which the source uses the error. -/
  UpdateIP : kubeovnv1.IP → σ → Option GoError × σ
  /-- From package util: `util.SplitStringIP`. -/
  SplitStringIP : String → String × String

section Migrators

variable {σ : Type}

/-- The two tests of `initSyncCrdVlans` on the copy of a VLAN (init.go 465-476):
the migrated spec and the flag `needUpdate`. -/
def syncVlanSpec (spec : kubeovnv1.VlanSpec) : kubeovnv1.VlanSpec × Bool :=
  let r1 : kubeovnv1.VlanSpec × Bool :=
    if spec.VlanId ≠ 0 ∧ spec.ID = 0 then
      ({ spec with ID := spec.VlanId, VlanId := 0 }, true)
    else (spec, false)
  if r1.1.ProviderInterfaceName ≠ "" ∧ r1.1.Provider = "" then
    ({ r1.1 with Provider := r1.1.ProviderInterfaceName, ProviderInterfaceName := "" }, true)
  else r1

/-- The record `newVlan` of `initSyncCrdVlans` after the two tests. -/
def syncVlan (vlan : kubeovnv1.Vlan) : kubeovnv1.Vlan :=
  { vlan with Spec := (syncVlanSpec vlan.Spec).1 }

/-- The loop of `initSyncCrdVlans` (init.go 464-483). -/
def initSyncCrdVlansLoop (c : MigrationClients σ) : List kubeovnv1.Vlan → σ → Option GoError × σ
  | [], s => (none, s)
  | vlan :: rest, s =>
    if (syncVlanSpec vlan.Spec).2 then
      match c.UpdateVlan (syncVlan vlan) s with
      | (some err, s1) => (some err, s1)
      | (none, s1) => initSyncCrdVlansLoop c rest s1
    else initSyncCrdVlansLoop c rest s

/-- Go `(*Controller).initSyncCrdVlans` (init.go 454-486). -/
def initSyncCrdVlans (c : MigrationClients σ) (s : σ) : Option GoError × σ :=
  match c.ListVlans s with
  | (Except.error err, s1) => if IsNotFound err then (none, s1) else (some err, s1)
  | (Except.ok vlans, s1) => initSyncCrdVlansLoop c vlans s1

/-- The test of `initSyncCrdIPs` that skips a record (init.go 414-417): the
fields `V4IPAddress` and `V6IPAddress` are the split of `IPAddress`. -/
def ipAlreadySplit (split : String → String × String) (spec : kubeovnv1.IPSpec) : Bool :=
  decide (spec.V4IPAddress = (split spec.IPAddress).1 ∧
    spec.V6IPAddress = (split spec.IPAddress).2)

/-- The record `ip` of `initSyncCrdIPs` after the two assignments
(init.go 418-419). -/
def syncIP (split : String → String × String) (ip : kubeovnv1.IP) : kubeovnv1.IP :=
  { ip with Spec := { ip.Spec with
      V4IPAddress := (split ip.Spec.IPAddress).1
      V6IPAddress := (split ip.Spec.IPAddress).2 } }

/-- The loop of `initSyncCrdIPs` (init.go 412-426). -/
def initSyncCrdIPsLoop (c : MigrationClients σ) : List kubeovnv1.IP → σ → Option GoError × σ
  | [], s => (none, s)
  | ipCr :: rest, s =>
    if ipAlreadySplit c.SplitStringIP ipCr.Spec then initSyncCrdIPsLoop c rest s
    else
      match c.UpdateIP (syncIP c.SplitStringIP ipCr) s with
      | (some err, s1) => (some err, s1)
      | (none, s1) => initSyncCrdIPsLoop c rest s1

/-- Go `(*Controller).initSyncCrdIPs` (init.go 402-428). -/
def initSyncCrdIPs (c : MigrationClients σ) (s : σ) : Option GoError × σ :=
  match c.ListIPs s with
  | (Except.error err, s1) => if IsNotFound err then (none, s1) else (some err, s1)
  | (Except.ok ips, s1) => initSyncCrdIPsLoop c ips s1

/-- A call of a migrator to one of its clients. -/
inductive MigrationCall where
  | ListVlans
  | UpdateVlan (vlan : kubeovnv1.Vlan)
  | ListIPs
  | UpdateIP (ip : kubeovnv1.IP)
  deriving DecidableEq, Repr

/-- The clients of the migrators with every call written to a log. -/
def MigrationClients.traced (c : MigrationClients σ) :
    MigrationClients (σ × List MigrationCall) :=
  { ListVlans := fun w => ((c.ListVlans w.1).1, ((c.ListVlans w.1).2, w.2 ++ [MigrationCall.ListVlans]))
    UpdateVlan := fun v w =>
      ((c.UpdateVlan v w.1).1, ((c.UpdateVlan v w.1).2, w.2 ++ [MigrationCall.UpdateVlan v]))
    ListIPs := fun w => ((c.ListIPs w.1).1, ((c.ListIPs w.1).2, w.2 ++ [MigrationCall.ListIPs]))
    UpdateIP := fun r w =>
      ((c.UpdateIP r w.1).1, ((c.UpdateIP r w.1).2, w.2 ++ [MigrationCall.UpdateIP r]))
    SplitStringIP := c.SplitStringIP }

end Migrators

end KubeOvn

/-! ## The IP records in `InitIPAM` (init.go 268-302) -/

namespace KubeOvn

/-- A line written by `klog.Errorf` in the part of `InitIPAM` that reads the IP
records, with the values it formats. -/
inductive ErrorLine where
  /-- Line 270, "failed to list IPs". -/
  | listIPs (err : GoError)
  /-- Line 280, "failed to delete IP CR". -/
  | deleteIP (name : String) (err : GoError)
  /-- Lines 291 and 299, "failed to init IPAM from IP CR". -/
  | initFromIP (name : String) (err : GoError)
  /-- Line 295, "attachment IP/MAC of IP CR ... is invalid". -/
  | attachmentInvalid (name : String)
  deriving DecidableEq, Repr

/-- The arguments of a call of `c.ipam.GetStaticAddress`. -/
structure StaticRequest where
  podName : String
  nicName : String
  ip : String
  mac : String
  subnetName : String
  checkConflict : Bool
  deriving DecidableEq, Repr

/-- The registry `c.ipam` as the controller uses it in this part of `InitIPAM`.
`GetStaticAddress` answers `none` when the call panics. -/
structure IpamClient (σ : Type) where
  GetStaticAddress : StaticRequest → σ → Option ((String × String × String × Option GoError) × σ)
  ReleaseAddressByPod : String → σ → σ

/-- The clients read and written by the part of `InitIPAM` on the IP records. -/
structure IPRecordClients (σ : Type) where
  /-- Go `c.ipsLister.List(labels.Everything())`. -/
  ListIPs : σ → Except GoError (List kubeovnv1.IP) × σ
  /-- Go `c.podsLister.Pods(namespace).Get(name)`, of which the source uses the
  error. -/
  GetPod : String → String → σ → Option GoError × σ
  /-- Go `IPs().Delete(ctx, name, opts)`. -/
  DeleteIP : String → σ → Option GoError × σ
  /-- Go `klog.Errorf`. -/
  Errorf : ErrorLine → σ → σ
  ipam : IpamClient σ

/-- How a run of the code on an IP record can end without result: an index out
of range in the record, or a panic inside the call of the registry. -/
inductive Crash where
  | indexOutOfRange
  | inIpam
  deriving DecidableEq, Repr

section IPRecords

variable {σ : Type}

/-- A call of `c.ipam.GetStaticAddress` whose error, if any, is logged
(init.go 290-292 and 298-300). -/
def hydrate (c : IPRecordClients σ) (name : String) (req : StaticRequest) (s : σ) :
    Except Crash σ :=
  match c.ipam.GetStaticAddress req s with
  | none => Except.error Crash.inIpam
  | some ((_, _, _, some err), s1) => Except.ok (c.Errorf (ErrorLine.initFromIP name err) s1)
  | some ((_, _, _, none), s1) => Except.ok s1

/-- The loop `for i := range ip.Spec.AttachSubnets` (init.go 293-301): the first
argument is the part of `AttachSubnets` from index `i` on. The accesses
`AttachIPs[i]` and `AttachMacs[i]` are made as the source makes them, after the
test of `i` against the two lengths, and crash when `i` is out of range. -/
def attachLoop (c : IPRecordClients σ) (ipamKey : String) (ip : kubeovnv1.IP) :
    List String → Nat → σ → Except Crash σ
  | [], _, s => Except.ok s
  | attachSubnet :: rest, i, s =>
    if i = ip.Spec.AttachIPs.length ∨ i = ip.Spec.AttachMacs.length then
      Except.ok (c.Errorf (ErrorLine.attachmentInvalid ip.Name) s)
    else
      match ip.Spec.AttachIPs[i]?, ip.Spec.AttachMacs[i]? with
      | some attachIP, some attachMac =>
        match hydrate c ip.Name
            { podName := ipamKey, nicName := ip.Name, ip := attachIP, mac := attachMac
              subnetName := attachSubnet, checkConflict := false } s with
        | Except.error crash => Except.error crash
        | Except.ok s1 => attachLoop c ipamKey ip rest (i + 1) s1
      | _, _ => Except.error Crash.indexOutOfRange

/-- The end of the body of the loop over the IP records, once `ipamKey` is set
(init.go 290-301): the address of the record, then its attachments. -/
def hydrateRecord (c : IPRecordClients σ) (ipamKey : String) (ip : kubeovnv1.IP) (s : σ) :
    Except Crash σ :=
  match hydrate c ip.Name
      { podName := ipamKey, nicName := ip.Name, ip := ip.Spec.IPAddress
        mac := ip.Spec.MacAddress, subnetName := ip.Spec.Subnet, checkConflict := false } s with
  | Except.error crash => Except.error crash
  | Except.ok s1 => attachLoop c ipamKey ip ip.Spec.AttachSubnets 0 s1

/-- The body of the loop over the IP records (init.go 274-301). -/
def initIPRecord (c : IPRecordClients σ) (ip : kubeovnv1.IP) (s : σ) : Except Crash σ :=
  if ip.Spec.Namespace ≠ "" then
    match c.GetPod ip.Spec.Namespace ip.Spec.PodName s with
    | (some err, s1) =>
      if IsNotFound err then
        match c.DeleteIP ip.Name s1 with
        | (some err', s2) => Except.ok (c.Errorf (ErrorLine.deleteIP ip.Name err') s2)
        | (none, s2) =>
          Except.ok (c.ipam.ReleaseAddressByPod (ip.Spec.Namespace ++ "/" ++ ip.Spec.PodName) s2)
      else hydrateRecord c (ip.Spec.Namespace ++ "/" ++ ip.Spec.PodName) ip s1
    | (none, s1) => hydrateRecord c (ip.Spec.Namespace ++ "/" ++ ip.Spec.PodName) ip s1
  else hydrateRecord c ("node-" ++ ip.Spec.PodName) ip s

/-- The loop over the IP records (init.go 273-302). -/
def initIPRecords (c : IPRecordClients σ) : List kubeovnv1.IP → σ → Except Crash σ
  | [], s => Except.ok s
  | ip :: rest, s =>
    match initIPRecord c ip s with
    | Except.error crash => Except.error crash
    | Except.ok s1 => initIPRecords c rest s1

/-- The part of `InitIPAM` on the IP records (init.go 268-302): the error
`InitIPAM` returns when the listing fails, or nil when the function goes on to
the nodes. -/
def InitIPAM_ips (c : IPRecordClients σ) (s : σ) : Except Crash (Option GoError × σ) :=
  match c.ListIPs s with
  | (Except.error err, s1) => Except.ok (some err, c.Errorf (ErrorLine.listIPs err) s1)
  | (Except.ok ips, s1) =>
    match initIPRecords c ips s1 with
    | Except.error crash => Except.error crash
    | Except.ok s2 => Except.ok (none, s2)

/-- A call of the code on the IP records to one of its clients. -/
inductive IPRecordCall where
  | ListIPs
  | GetPod (ns name : String)
  | DeleteIP (name : String)
  | Errorf (line : ErrorLine)
  | GetStaticAddress (req : StaticRequest)
  | ReleaseAddressByPod (podName : String)
  deriving DecidableEq, Repr

/-- The clients with every call written to a log. -/
def IPRecordClients.traced (c : IPRecordClients σ) : IPRecordClients (σ × List IPRecordCall) :=
  { ListIPs := fun w => ((c.ListIPs w.1).1, ((c.ListIPs w.1).2, w.2 ++ [IPRecordCall.ListIPs]))
    GetPod := fun ns n w =>
      ((c.GetPod ns n w.1).1, ((c.GetPod ns n w.1).2, w.2 ++ [IPRecordCall.GetPod ns n]))
    DeleteIP := fun n w =>
      ((c.DeleteIP n w.1).1, ((c.DeleteIP n w.1).2, w.2 ++ [IPRecordCall.DeleteIP n]))
    Errorf := fun line w => (c.Errorf line w.1, w.2 ++ [IPRecordCall.Errorf line])
    ipam := {
      GetStaticAddress := fun req w =>
        (c.ipam.GetStaticAddress req w.1).map
          (fun r => (r.1, (r.2, w.2 ++ [IPRecordCall.GetStaticAddress req])))
      ReleaseAddressByPod := fun p w =>
        (c.ipam.ReleaseAddressByPod p w.1, w.2 ++ [IPRecordCall.ReleaseAddressByPod p]) } }

/-- The requests for the attachments of a record, in the words of the spec: the
attach lists "paired positionally", as far as the three lists go. -/
def attachRequests (ipamKey name : String) : List String → List String → List String →
    List StaticRequest
  | attachSubnet :: subnets, attachIP :: ips, attachMac :: macs =>
    { podName := ipamKey, nicName := name, ip := attachIP, mac := attachMac
      subnetName := attachSubnet, checkConflict := false } ::
      attachRequests ipamKey name subnets ips macs
  | _, _, _ => []

/-- The requests made one after the other, the error of each logged; no list is
indexed. -/
def runRequests (c : IPRecordClients σ) (name : String) : List StaticRequest → σ → Except Crash σ
  | [], s => Except.ok s
  | req :: rest, s =>
    match hydrate c name req s with
    | Except.error crash => Except.error crash
    | Except.ok s1 => runRequests c name rest s1

/-- The report of a mismatch after the requests for the attachments: the line
"attachment IP/MAC ... is invalid" is logged when `AttachSubnets` is longer than
`AttachIPs` or than `AttachMacs`. -/
def reportMismatch (c : IPRecordClients σ) (name : String) (subnets ips macs : List String)
    (s : σ) : σ :=
  if min ips.length macs.length < subnets.length then
    c.Errorf (ErrorLine.attachmentInvalid name) s
  else s

/-- The calls of `c.ipam.GetStaticAddress` in a log, in order. -/
def requestsOf (log : List IPRecordCall) : List StaticRequest :=
  log.filterMap (fun call =>
    match call with
    | IPRecordCall.GetStaticAddress req => some req
    | _ => none)

end IPRecords

/-- The registry of package `ipam` as the client `c.ipam`, on a world made of an
outside world and the registry. -/
def registryClient (ops : PoolOps) (σ : Type) : IpamClient (σ × IPAM) :=
  { GetStaticAddress := fun req w =>
      (IPAM.GetStaticAddress ops w.2 req.podName req.nicName req.ip req.mac req.subnetName
        req.checkConflict).map (fun r => (r.1, (w.1, r.2)))
    ReleaseAddressByPod := fun p w => (w.1, IPAM.ReleaseAddressByPod ops w.2 p) }

/-- The pods and the IP records of an in-memory cluster, the deletions it is set
to refuse (by record name), and the lines logged. -/
structure IPStore where
  pods : List (String × String)
  ips : List kubeovnv1.IP
  deleteErrors : GoMap String GoError
  log : List ErrorLine
  deriving DecidableEq, Repr

/-- The clients of the code on the IP records over an in-memory cluster and the
registry of package `ipam`: a pod is found when its namespace and name are
listed, and a deletion that is not refused removes the record. -/
def memIPClients (ops : PoolOps) : IPRecordClients (IPStore × IPAM) :=
  { ListIPs := fun w => (Except.ok w.1.ips, w)
    GetPod := fun ns n w =>
      (if (ns, n) ∈ w.1.pods then none else some (GoError.notFound n), w)
    DeleteIP := fun n w =>
      match w.1.deleteErrors.get? n with
      | some err => (some err, w)
      | none => (none, ({ w.1 with ips := w.1.ips.filter (fun r => decide (r.Name ≠ n)) }, w.2))
    Errorf := fun line w => ({ w.1 with log := w.1.log ++ [line] }, w.2)
    ipam := registryClient ops IPStore }

/-- The clients of the migrators over an in-memory cluster, the lists of its
VLAN records and of its IP records: an update replaces the record of the same
name. -/
def memMigration (split : String → String × String) :
    MigrationClients (List kubeovnv1.Vlan × List kubeovnv1.IP) :=
  { ListVlans := fun w => (Except.ok w.1, w)
    UpdateVlan := fun v w => (none, (w.1.map (fun r => if r.Name = v.Name then v else r), w.2))
    ListIPs := fun w => (Except.ok w.2, w)
    UpdateIP := fun r w => (none, (w.1, w.2.map (fun r' => if r'.Name = r.Name then r else r')))
    SplitStringIP := split }

namespace Scenario

/-- Modelled from the spec: `util.SplitStringIP`, which splits "the legacy
combined `IPAddress` field into `V4IPAddress`/`V6IPAddress`" (4.F): the two
parts of a dual text, or the text on the side of its family. -/
def SplitStringIP (ipStr : String) : String × String :=
  if CheckProtocol ipStr = ProtocolDual then
    match Split ipStr ',' with
    | [v4IP, v6IP] => (v4IP, v6IP)
    | _ => ("", "")
  else if CheckProtocol ipStr = ProtocolIPv4 then (ipStr, "")
  else if CheckProtocol ipStr = ProtocolIPv6 then ("", ipStr)
  else ("", "")

/-- A VLAN record written before the rename of the fields. -/
def legacyVlan : kubeovnv1.Vlan :=
  { Name := "ovn-vlan"
    Spec := { ID := 0, Provider := "", VlanId := 5, ProviderInterfaceName := "eth1" } }

/-- A VLAN record with the legacy fields and the new fields set. -/
def mixedVlan : kubeovnv1.Vlan :=
  { Name := "vlan7"
    Spec := { ID := 7, Provider := "provider", VlanId := 5, ProviderInterfaceName := "eth1" } }

/-- The registry of scenario 3 after pod `ns/p` has been given `10.0.0.2` and
`fd00::2` on its nic `p.ns`. -/
def registryP : IPAM :=
  match IPAM.GetStaticAddress ops registry "ns/p" "p.ns" "10.0.0.2,fd00::2" "" "s1" false with
  | some (_, ipam) => ipam
  | none => registry

/-- The IP record of pod `ns/p`, nic `p.ns`. -/
def orphanRecord : kubeovnv1.IP :=
  { Name := "p.ns"
    Spec := { Namespace := "ns", PodName := "p", IPAddress := "10.0.0.2,fd00::2"
              MacAddress := "", Subnet := "s1", V4IPAddress := "10.0.0.2"
              V6IPAddress := "fd00::2", AttachSubnets := [], AttachIPs := [], AttachMacs := [] } }

/-- An IP record of node `n1` with two attach subnets, one attach address and
one attach MAC. -/
def mismatchRecord : kubeovnv1.IP :=
  { Name := "node-n1"
    Spec := { Namespace := "", PodName := "n1", IPAddress := "10.0.0.2"
              MacAddress := "", Subnet := "s1", V4IPAddress := "10.0.0.2"
              V6IPAddress := "", AttachSubnets := ["s1", "s1"], AttachIPs := ["10.0.0.3"]
              AttachMacs := ["00:00:00:00:00:01"] } }

/-- An in-memory cluster without pods, holding the given IP records. -/
def ipStore (ips : List kubeovnv1.IP) (deleteErrors : GoMap String GoError) : IPStore :=
  { pods := [], ips := ips, deleteErrors := deleteErrors, log := [] }

end Scenario

end KubeOvn

/-! ## Theorems -/

namespace KubeOvn

/-! ### Lemmas on strings and maps -/

theorem GoMap.get?_eq_none_of_not_mem_keys {κ ν : Type} [DecidableEq κ] (m : GoMap κ ν) (k : κ)
    (h : k ∉ GoMap.keys m) : GoMap.get? m k = none := by
  induction m with
  | nil => rfl
  | cons e rest ih =>
    obtain ⟨k', v⟩ := e
    simp only [GoMap.keys, List.map_cons, List.mem_cons, not_or] at h
    have hne : ¬ k' = k := fun hk => h.1 hk.symm
    simp only [GoMap.get?, hne, if_false]
    exact ih h.2

theorem splitChars_no_sep (sep : Char) (cs cur : List Char) (h : sep ∉ cs) :
    splitChars sep cur cs = [cur.reverse ++ cs] := by
  induction cs generalizing cur with
  | nil => simp [splitChars]
  | cons c cs ih =>
    simp only [List.mem_cons, not_or] at h
    have hc : ¬ c = sep := fun e => h.1 e.symm
    simp [splitChars, hc, ih (c :: cur) h.2]

theorem splitChars_append_sep (sep : Char) (as bs cur : List Char) (h : sep ∉ as) :
    splitChars sep cur (as ++ sep :: bs) = (cur.reverse ++ as) :: splitChars sep [] bs := by
  induction as generalizing cur with
  | nil => simp [splitChars]
  | cons c cs ih =>
    simp only [List.mem_cons, not_or] at h
    have hc : ¬ c = sep := fun e => h.1 e.symm
    simp [splitChars, hc, ih (c :: cur) h.2]

/-- A string without a comma is its own single piece. -/
theorem Split_single (s : String) (h : ',' ∉ s.data) : Split s ',' = [s] := by
  simp [Split, splitChars_no_sep ',' s.data [] h]

/-- The pieces of `a,b` are `a` and `b` when neither holds a comma. -/
theorem Split_pair (a b : String) (ha : ',' ∉ a.data) (hb : ',' ∉ b.data) :
    Split (a ++ "," ++ b) ',' = [a, b] := by
  have hd : (a ++ "," ++ b).data = a.data ++ ',' :: b.data := by
    simp [String.data_append]
  simp [Split, hd, splitChars_append_sep ',' a.data b.data [] ha,
    splitChars_no_sep ',' b.data [] hb]

/-- The parsing loop fails as soon as one block does not parse. -/
theorem parseCidrBlocks_invalid (ops : PoolOps) (blocks : List String) (cidrs : List IPNet)
    (h : ∃ blk ∈ blocks, ops.ParseCIDR blk = none) :
    parseCidrBlocks ops blocks cidrs = Except.error GoError.ErrInvalidCIDR := by
  induction blocks generalizing cidrs with
  | nil => simp at h
  | cons b rest ih =>
    cases hb : ops.ParseCIDR b with
    | none => simp [parseCidrBlocks, hb]
    | some c =>
      obtain ⟨blk, hmem, hnone⟩ := h
      have hrest : ∃ blk ∈ rest, ops.ParseCIDR blk = none := by
        rcases List.mem_cons.mp hmem with rfl | hr
        · rw [hb] at hnone; cases hnone
        · exact ⟨blk, hr, hnone⟩
      simp [parseCidrBlocks, hb, ih _ hrest]

/-- The loop of `initClusterRouter` finds a router exactly when one of the
listed routers has the name. -/
theorem routerListed_iff (name : String) (lrs : List LogicalRouter) :
    routerListed name lrs = true ↔ ∃ r ∈ lrs, r.Name = name := by
  induction lrs with
  | nil => simp [routerListed]
  | cons r rest ih =>
    by_cases h : name = r.Name
    · simp [routerListed, h]
    · have h' : ¬ r.Name = name := fun e => h e.symm
      simp [routerListed, h, h', ih]

/-! ### The registry -/

/-- C1: for a subnet name that is not a key of the registry, `GetRandomAddress`
and `GetStaticAddress` return the error `ErrNoAvailable` with three empty
strings, `ReleaseIPAddressByPodNameAndNicName` returns `ErrNoAvailable`, and
each of the three leaves the registry, hence every pool, as it was. This holds
whatever the methods of the pools do. -/
theorem absent_subnet_NoAvailable (ops : PoolOps) (ipam : IPAM)
    (podName nicName ip mac subnetName : String) (skippedAddrs : List String)
    (checkConflict : Bool) (h : subnetName ∉ GoMap.keys ipam.Subnets) :
    IPAM.GetRandomAddress ops ipam podName nicName subnetName skippedAddrs
        = (("", "", "", some GoError.ErrNoAvailable), ipam) ∧
      IPAM.GetStaticAddress ops ipam podName nicName ip mac subnetName checkConflict
        = some (("", "", "", some GoError.ErrNoAvailable), ipam) ∧
      IPAM.ReleaseIPAddressByPodNameAndNicName ops ipam podName nicName subnetName
        = (some GoError.ErrNoAvailable, ipam) := by
  have hget := GoMap.get?_eq_none_of_not_mem_keys ipam.Subnets subnetName h
  simp [IPAM.GetRandomAddress, IPAM.GetStaticAddress, IPAM.ReleaseIPAddressByPodNameAndNicName,
    hget]

/-- Witness of C1: the registry of scenario 3 holds `s1` only, and the three
operations on `s2` answer `ErrNoAvailable` and return the registry unchanged. -/
theorem absent_subnet_NoAvailable_witness :
    "s2" ∉ GoMap.keys Scenario.registry.Subnets ∧
    (IPAM.GetRandomAddress Scenario.ops Scenario.registry "ns/p" "p.ns" "s2" []
        = (("", "", "", some GoError.ErrNoAvailable), Scenario.registry) ∧
      IPAM.GetStaticAddress Scenario.ops Scenario.registry "ns/p" "p.ns" "10.0.0.2" "" "s2" false
        = some (("", "", "", some GoError.ErrNoAvailable), Scenario.registry) ∧
      IPAM.ReleaseIPAddressByPodNameAndNicName Scenario.ops Scenario.registry "ns/p" "p.ns" "s2"
        = (some GoError.ErrNoAvailable, Scenario.registry)) :=
  ⟨by decide, absent_subnet_NoAvailable Scenario.ops Scenario.registry "ns/p" "p.ns" "10.0.0.2" ""
    "s2" [] false (by decide)⟩

/-- C2, counterexample: on the empty registry `IsIPAssignedToPod` answers `false`
and `GetPodByIP` answers the empty list for the subnet `s1`, the very answers
they give on the registry of scenario 3, where `s1` exists and `10.0.0.2` is not
allocated. The absent subnet is reported as an ordinary negative answer; the
results, a `bool` and a `[]string`, have no error component. -/
theorem absent_subnet_queries_answer_negative :
    IPAM.IsIPAssignedToPod Scenario.ops NewIPAM "10.0.0.2" "s1" = false ∧
    IPAM.GetPodByIP Scenario.ops NewIPAM "10.0.0.2" "s1" = [] ∧
    "s1" ∈ GoMap.keys Scenario.registry.Subnets ∧
    IPAM.IsIPAssignedToPod Scenario.ops Scenario.registry "10.0.0.2" "s1"
      = IPAM.IsIPAssignedToPod Scenario.ops NewIPAM "10.0.0.2" "s1" ∧
    IPAM.GetPodByIP Scenario.ops Scenario.registry "10.0.0.2" "s1"
      = IPAM.GetPodByIP Scenario.ops NewIPAM "10.0.0.2" "s1" := by
  decide

/-- C2, amended: for a subnet name that is not a key of the registry,
`IsIPAssignedToPod` returns `false` and `GetPodByIP` returns the empty (nil)
list, whatever the methods of the pools do. -/
theorem absent_subnet_queries (ops : PoolOps) (ipam : IPAM) (ip subnetName : String)
    (h : subnetName ∉ GoMap.keys ipam.Subnets) :
    IPAM.IsIPAssignedToPod ops ipam ip subnetName = false ∧
      IPAM.GetPodByIP ops ipam ip subnetName = [] := by
  have hget := GoMap.get?_eq_none_of_not_mem_keys ipam.Subnets subnetName h
  simp [IPAM.IsIPAssignedToPod, IPAM.GetPodByIP, hget]

/-- Witness of C2, amended: the two queries on the absent subnet `s2` of the
registry of scenario 3. -/
theorem absent_subnet_queries_witness :
    "s2" ∉ GoMap.keys Scenario.registry.Subnets ∧
    (IPAM.IsIPAssignedToPod Scenario.ops Scenario.registry "10.0.0.2" "s2" = false ∧
      IPAM.GetPodByIP Scenario.ops Scenario.registry "10.0.0.2" "s2" = []) :=
  ⟨by decide, absent_subnet_queries Scenario.ops Scenario.registry "10.0.0.2" "s2" (by decide)⟩

/-- C4: when one of the comma-separated blocks of `cidrStr` does not parse as a
CIDR, `AddOrUpdateSubnet` returns `ErrInvalidCIDR` and the registry it leaves is
the registry it was given: same names, same pools, every field unchanged. -/
theorem AddOrUpdateSubnet_invalid_cidr (ops : PoolOps) (ipam : IPAM) (name cidrStr : String)
    (excludeIps : List String)
    (h : ∃ blk ∈ Split cidrStr ',', ops.ParseCIDR blk = none) :
    IPAM.AddOrUpdateSubnet ops ipam name cidrStr excludeIps
      = some (some GoError.ErrInvalidCIDR, ipam) := by
  have hloop : parseCidrBlocks ops (Split cidrStr ',') []
      = Except.error GoError.ErrInvalidCIDR := parseCidrBlocks_invalid ops _ [] h
  unfold IPAM.AddOrUpdateSubnet
  rw [hloop]

/-- Witness of C4: the second block of `10.0.0.0/29,fd00::/129` does not parse;
the update of the existing subnet `s1` is refused and changes nothing. -/
theorem AddOrUpdateSubnet_invalid_cidr_witness :
    (∃ blk ∈ Split "10.0.0.0/29,fd00::/129" ',', Scenario.ops.ParseCIDR blk = none) ∧
    IPAM.AddOrUpdateSubnet Scenario.ops Scenario.registry "s1" "10.0.0.0/29,fd00::/129"
        ["10.0.0.1"]
      = some (some GoError.ErrInvalidCIDR, Scenario.registry) :=
  ⟨⟨"fd00::/129", by decide, by decide⟩,
   AddOrUpdateSubnet_invalid_cidr Scenario.ops Scenario.registry "s1" "10.0.0.0/29,fd00::/129"
     ["10.0.0.1"] ⟨"fd00::/129", by decide, by decide⟩⟩

/-- C6, counterexample: on the dual-stack subnet `s1` of scenario 3, the static
request `10.0.0.2` for pod `ns/p`, nic `p.ns`, succeeds and leaves the nic with a
v4 address and no v6 address; and on the registry where `fd00::2` belongs to pod
`ns/q`, the request `10.0.0.2,fd00::2` with `checkConflict` fails with
`ErrConflict` on its second address and leaves the nic with the v4 address
`10.0.0.2` and no v6 address. -/
theorem GetStaticAddress_one_sided :
    (Scenario.registry.Subnets.get? "s1").map Subnet.Protocol = some ProtocolDual ∧
    (∃ r ipam', IPAM.GetStaticAddress Scenario.ops Scenario.registry "ns/p" "p.ns" "10.0.0.2" ""
        "s1" false = some (r, ipam') ∧ r = ("10.0.0.2", "", "mac-of-p.ns", none) ∧
      ipam'.nicAddresses "s1" "p.ns" = (some "10.0.0.2", none)) ∧
    (∃ r ipam', IPAM.GetStaticAddress Scenario.ops Scenario.registryQ "ns/p" "p.ns"
        "10.0.0.2,fd00::2" "" "s1" true = some (r, ipam') ∧
      r = ("", "", "", some GoError.ErrConflict) ∧
      ipam'.nicAddresses "s1" "p.ns" = (some "10.0.0.2", none)) := by
  refine ⟨by decide, ⟨_, _, rfl, ?_, ?_⟩, ⟨_, _, rfl, ?_, ?_⟩⟩ <;> decide

/-- C6, amended: `GetStaticAddress` of the registry allocates in the pool, in
order, the addresses named by `ip`, completes nothing and undoes nothing. For an
`ip` without comma whose protocol is not dual, the pool it leaves is the one
left by the single allocation of `ip`, whether that allocation succeeded or
failed. For `ip = a,b` where the allocation of `a` succeeds and the allocation
of `b` fails with `err`, it returns `err` with three empty strings and the pool
is the one left by the failed allocation of `b` made after the allocation of
`a`: the allocation of `a` is kept. -/
theorem GetStaticAddress_no_completion_no_rollback (ops : PoolOps) (ipam : IPAM)
    (podName nicName mac subnetName : String) (checkConflict : Bool) (subnet : Subnet)
    (h : ipam.Subnets.get? subnetName = some subnet) :
    (∀ ip : String, ',' ∉ ip.data → ops.CheckProtocol ip ≠ ProtocolDual →
      (IPAM.GetStaticAddress ops ipam podName nicName ip mac subnetName checkConflict).map
          Prod.snd
        = some (ipam.store subnetName
            (ops.GetStaticAddress subnet podName nicName ip mac false checkConflict).2)) ∧
    (∀ (a b ra ma rb mb : String) (sa sb : Subnet) (err : GoError),
      ',' ∉ a.data → ',' ∉ b.data →
      ops.GetStaticAddress subnet podName nicName a mac false checkConflict
        = ((ra, ma, none), sa) →
      ops.GetStaticAddress sa podName nicName b ma false checkConflict
        = ((rb, mb, some err), sb) →
      IPAM.GetStaticAddress ops ipam podName nicName (a ++ "," ++ b) mac subnetName checkConflict
        = some (("", "", "", some err), ipam.store subnetName sb)) := by
  refine ⟨?_, ?_⟩
  · intro ip hip hnd
    rcases hA : ops.GetStaticAddress subnet podName nicName ip mac false checkConflict with
      ⟨⟨r, m, _ | err⟩, s'⟩
    · by_cases h4 : ops.CheckProtocol ip = ProtocolIPv4
      · simp [IPAM.GetStaticAddress, h, Split_single ip hip, staticLoop, hA, h4]
      · by_cases h6 : ops.CheckProtocol ip = ProtocolIPv6
        · have h64 : ¬ ProtocolIPv6 = ProtocolIPv4 := by decide
          simp [IPAM.GetStaticAddress, h, Split_single ip hip, staticLoop, hA, h6, h64]
        · simp [IPAM.GetStaticAddress, h, Split_single ip hip, staticLoop, hA, h4, h6, hnd]
    · simp [IPAM.GetStaticAddress, h, Split_single ip hip, staticLoop, hA]
  · intro a b ra ma rb mb sa sb err ha hb hA hB
    simp [IPAM.GetStaticAddress, h, Split_pair a b ha hb, staticLoop, hA, hB]

/-- Witness of C6, amended: the two requests of the counterexample. The first
leaves the registry as the single pool allocation of `10.0.0.2` leaves it, with
a v4 address only on the nic; the second returns the error of `fd00::2`. -/
theorem GetStaticAddress_no_completion_no_rollback_witness :
    (Scenario.registry.Subnets.get? "s1").isSome ∧
    ((IPAM.GetStaticAddress Scenario.ops Scenario.registry "ns/p" "p.ns" "10.0.0.2" "" "s1"
        false).map Prod.snd).map (fun i => i.nicAddresses "s1" "p.ns")
      = some (some "10.0.0.2", none) ∧
    (IPAM.GetStaticAddress Scenario.ops Scenario.registryQ "ns/p" "p.ns" "10.0.0.2,fd00::2" ""
        "s1" true).map Prod.fst = some ("", "", "", some GoError.ErrConflict) := by
  refine ⟨by decide, ?_, ?_⟩
  · rw [(GetStaticAddress_no_completion_no_rollback Scenario.ops Scenario.registry "ns/p"
      "p.ns" "" "s1" false _ rfl).1 "10.0.0.2" (by decide) (by decide)]
    decide
  · have h := (GetStaticAddress_no_completion_no_rollback Scenario.ops Scenario.registryQ "ns/p"
      "p.ns" "" "s1" true _ rfl).2 "10.0.0.2" "fd00::2" "10.0.0.2" "mac-of-p.ns" "fd00::2"
      "mac-of-p.ns" _ _ GoError.ErrConflict (by decide) (by decide) rfl rfl
    have e : ("10.0.0.2" ++ "," ++ "fd00::2" : String) = "10.0.0.2,fd00::2" := by decide
    rw [e] at h
    rw [h]
    rfl

/-- C7: on an existing subnet, for `ip = a,b` without further comma and of dual
protocol, when the pool allocates `a` (returning the MAC `ma`) and then `b`
requested with the MAC `ma` (returning the MAC `mb`), `GetStaticAddress` of the
registry returns `(a, b, mb, nil)`; for an `ip` without comma that the pool
allocates, it returns `(ip, "", mac, nil)` when the protocol of `ip` is IPv4 and
`("", ip, mac, nil)` when it is IPv6, `mac` being the MAC the pool returned. The
protocol is the one `util.CheckProtocol` gives, and a successful allocation by
the pool is one that returns the requested address with a nil error (for the
pair the registry hands on the addresses the pool returned). In each case the
registry holds the pool as the allocations left it. -/
theorem GetStaticAddress_returns (ops : PoolOps) (ipam : IPAM)
    (podName nicName mac subnetName : String) (checkConflict : Bool) (subnet : Subnet)
    (h : ipam.Subnets.get? subnetName = some subnet) :
    (∀ (a b ma mb : String) (sa sb : Subnet), ',' ∉ a.data → ',' ∉ b.data →
      ops.CheckProtocol (a ++ "," ++ b) = ProtocolDual →
      ops.GetStaticAddress subnet podName nicName a mac false checkConflict
        = ((a, ma, none), sa) →
      ops.GetStaticAddress sa podName nicName b ma false checkConflict
        = ((b, mb, none), sb) →
      IPAM.GetStaticAddress ops ipam podName nicName (a ++ "," ++ b) mac subnetName checkConflict
        = some ((a, b, mb, none), ipam.store subnetName sb)) ∧
    (∀ (ip r m : String) (s' : Subnet), ',' ∉ ip.data →
      ops.GetStaticAddress subnet podName nicName ip mac false checkConflict
        = ((r, m, none), s') →
      (ops.CheckProtocol ip = ProtocolIPv4 →
        IPAM.GetStaticAddress ops ipam podName nicName ip mac subnetName checkConflict
          = some ((ip, "", m, none), ipam.store subnetName s')) ∧
      (ops.CheckProtocol ip = ProtocolIPv6 →
        IPAM.GetStaticAddress ops ipam podName nicName ip mac subnetName checkConflict
          = some (("", ip, m, none), ipam.store subnetName s'))) := by
  refine ⟨?_, ?_⟩
  · intro a b ma mb sa sb ha hb hdual hA hB
    have h4 : ¬ ProtocolDual = ProtocolIPv4 := by decide
    have h6 : ¬ ProtocolDual = ProtocolIPv6 := by decide
    simp [IPAM.GetStaticAddress, h, Split_pair a b ha hb, staticLoop, hA, hB, hdual, h4, h6]
  · intro ip r m s' hip hA
    have h64 : ¬ ProtocolIPv6 = ProtocolIPv4 := by decide
    refine ⟨?_, ?_⟩
    · intro hp
      simp [IPAM.GetStaticAddress, h, Split_single ip hip, staticLoop, hA, hp]
    · intro hp
      simp [IPAM.GetStaticAddress, h, Split_single ip hip, staticLoop, hA, hp, h64]

/-- Witness of C7: scenario 3 of the spec, the static request
`10.0.0.2,fd00::2` on the dual-stack subnet `10.0.0.0/29, fd00::/125`, and the
two single-family requests. -/
theorem GetStaticAddress_returns_witness :
    (∃ ipam', IPAM.GetStaticAddress Scenario.ops Scenario.registry "ns/p" "p.ns"
        ("10.0.0.2" ++ "," ++ "fd00::2") "" "s1" false
      = some (("10.0.0.2", "fd00::2", "mac-of-p.ns", none), ipam')) ∧
    (∃ ipam', IPAM.GetStaticAddress Scenario.ops Scenario.registry "ns/p" "p.ns" "10.0.0.2" ""
        "s1" false = some (("10.0.0.2", "", "mac-of-p.ns", none), ipam')) ∧
    (∃ ipam', IPAM.GetStaticAddress Scenario.ops Scenario.registry "ns/p" "p.ns" "fd00::2" ""
        "s1" false = some (("", "fd00::2", "mac-of-p.ns", none), ipam')) :=
  ⟨⟨_, (GetStaticAddress_returns Scenario.ops Scenario.registry "ns/p" "p.ns" "" "s1" false _
      rfl).1 "10.0.0.2" "fd00::2" "mac-of-p.ns" "mac-of-p.ns" _ _ (by decide) (by decide)
      (by decide) rfl rfl⟩,
   ⟨_, ((GetStaticAddress_returns Scenario.ops Scenario.registry "ns/p" "p.ns" "" "s1" false _
      rfl).2 "10.0.0.2" "10.0.0.2" "mac-of-p.ns" _ (by decide) rfl).1 (by decide)⟩,
   ⟨_, ((GetStaticAddress_returns Scenario.ops Scenario.registry "ns/p" "p.ns" "" "s1" false _
      rfl).2 "fd00::2" "fd00::2" "mac-of-p.ns" _ (by decide) rfl).2 (by decide)⟩⟩

/-! ### The bring-up steps -/

section Steps

variable {σ : Type}

/-- The check of the VLAN id as the source makes it: in VLAN mode, with the
provider network found and the VLAN not found, `initDefaultVlan` returns the
error and calls no `Create` when the id is below 0 or above 4095, and calls
`Create` once, on a record whose `Spec.ID` is the configured id, when the id is
between 0 and 4095. -/
theorem initDefaultVlan_id_check (c : Controller σ) (s s1 s2 : σ)
    (pn : Option kubeovnv1.ProviderNetwork) (what : String)
    (hmode : c.config.NetworkType = c.NetworkTypeVlan)
    (hpn : c.providerNetworksLister.Get c.config.DefaultProviderName s = (Except.ok pn, s1))
    (hvlan : c.vlansLister.Get c.config.DefaultVlanName s1
      = (Except.error (GoError.notFound what), s2)) :
    (c.config.DefaultVlanID < 0 ∨ 4095 < c.config.DefaultVlanID →
      initDefaultVlan c.traced (s, [])
        = (some (GoError.errorf "the default vlan id is not between 1-4095"),
           (s2, [Call.ListerGetProviderNetwork c.config.DefaultProviderName,
                 Call.ListerGetVlan c.config.DefaultVlanName]))) ∧
    (0 ≤ c.config.DefaultVlanID ∧ c.config.DefaultVlanID ≤ 4095 →
      (defaultVlan c).Spec.ID = c.config.DefaultVlanID ∧
        initDefaultVlan c.traced (s, [])
          = ((c.KubeOvnClient.Vlans.Create (defaultVlan c) s2).1,
             ((c.KubeOvnClient.Vlans.Create (defaultVlan c) s2).2,
              [Call.ListerGetProviderNetwork c.config.DefaultProviderName,
               Call.ListerGetVlan c.config.DefaultVlanName, Call.CreateVlan (defaultVlan c)]))) := by
  refine ⟨?_, ?_⟩
  · intro hid
    have hid' : c.config.DefaultVlanID < 0 ∨ c.config.DefaultVlanID > 4095 := hid
    simp [initDefaultVlan, initDefaultProviderNetwork, Controller.traced, logged, hmode, hpn,
      hvlan, IsNotFound, hid']
  · intro hid
    have hid' : ¬ (c.config.DefaultVlanID < 0 ∨ c.config.DefaultVlanID > 4095) := by omega
    refine ⟨rfl, ?_⟩
    simp only [initDefaultVlan, initDefaultProviderNetwork, Controller.traced, logged, hmode, hpn,
      hvlan, IsNotFound, hid']
    simp [defaultVlan]

/-- The error `initHtbQos` holds when an iteration of its loop starts does not
reach the result: the loop started with any error gives what it gives started
with nil. The error returned by `initHtbQos` is therefore the one of the last
tier alone. -/
theorem initHtbQosLoop_forgets_error (c : Controller σ) (qosName : String)
    (rest : List String) (err : Option GoError) (priority : String) (s : σ) :
    initHtbQosLoop c (qosName :: rest) err priority s
      = initHtbQosLoop c (qosName :: rest) none priority s := by
  simp only [initHtbQosLoop]

/-- C9: `InitOVN` runs `initClusterRouter`, `initDefaultVlan`, `initNodeSwitch`,
`initDefaultLogicalSwitch` and `initHtbQos` in this order, each on the world the
previous one left. Its outcome, error and world, is the outcome of the first
step that returns an error, so no later step has run (for a traced controller
the world holds the log of the calls made), and the outcome of `initHtbQos` when
the first four return nil; it returns nil exactly when the five steps return
nil. -/
theorem InitOVN_order (c : Controller σ) (s : σ) :
    let r1 := initClusterRouter c s
    let r2 := initDefaultVlan c r1.2
    let r3 := initNodeSwitch c r2.2
    let r4 := initDefaultLogicalSwitch c r3.2
    let r5 := initHtbQos c r4.2
    InitOVN c s =
        (if r1.1 ≠ none then r1 else if r2.1 ≠ none then r2 else if r3.1 ≠ none then r3
         else if r4.1 ≠ none then r4 else r5) ∧
      ((InitOVN c s).1 = none ↔
        r1.1 = none ∧ r2.1 = none ∧ r3.1 = none ∧ r4.1 = none ∧ r5.1 = none) := by
  intro r1 r2 r3 r4 r5
  have key : InitOVN c s =
      (if r1.1 ≠ none then r1 else if r2.1 ≠ none then r2 else if r3.1 ≠ none then r3
       else if r4.1 ≠ none then r4 else r5) := by
    unfold InitOVN
    rcases h1 : initClusterRouter c s with ⟨_ | e1, s1⟩
    · have e1 : r1 = (none, s1) := h1
      simp only [e1, ne_eq, not_true_eq_false, if_false]
      rcases h2 : initDefaultVlan c s1 with ⟨_ | e2, s2⟩
      · have e2 : r2 = (none, s2) := by simp only [r2, e1, h2]
        simp only [e2, ne_eq, not_true_eq_false, if_false]
        rcases h3 : initNodeSwitch c s2 with ⟨_ | e3, s3⟩
        · have e3 : r3 = (none, s3) := by simp only [r3, e2, h3]
          simp only [e3, ne_eq, not_true_eq_false, if_false]
          rcases h4 : initDefaultLogicalSwitch c s3 with ⟨_ | e4, s4⟩
          · have e4 : r4 = (none, s4) := by simp only [r4, e3, h4]
            simp only [e4, ne_eq, not_true_eq_false, if_false]
            rcases h5 : initHtbQos c s4 with ⟨_ | e5, s5⟩
            · have e5 : r5 = (none, s5) := by simp only [r5, e4, h5]
              simp [e5]
            · have e5 : r5 = (some e5, s5) := by simp only [r5, e4, h5]
              simp [e5]
          · have e4 : r4 = (some e4, s4) := by simp only [r4, e3, h4]
            simp [e4]
        · have e3 : r3 = (some e3, s3) := by simp only [r3, e2, h3]
          simp [e3]
      · have e2 : r2 = (some e2, s2) := by simp only [r2, e1, h2]
        simp [e2]
    · have e1 : r1 = (some e1, s1) := h1
      simp [e1]
  refine ⟨key, ?_⟩
  rw [key]
  by_cases h1 : r1.1 = none
  · by_cases h2 : r2.1 = none
    · by_cases h3 : r3.1 = none
      · by_cases h4 : r4.1 = none
        · simp [h1, h2, h3, h4]
        · simp [h1, h2, h3, h4]
      · simp [h1, h2, h3]
    · simp [h1, h2]
  · simp [h1]

/-- C10: when the listing succeeds, `initClusterRouter` calls
`CreateLogicalRouter` exactly once, for the configured name, if no listed router
has that name, and makes no call but the listing and returns nil if one has.
Hence, for a client whose listing does not change the world and lists a router
after its creation has succeeded, a run that follows a run that returned nil
lists the routers, creates nothing, returns nil and leaves the world as it
is. -/
theorem initClusterRouter_idempotent (c : Controller σ) (s s1 : σ) (lrs : List LogicalRouter)
    (hlist : c.ovnClient.ListLogicalRouter c.config.EnableExternalVpc s = (Except.ok lrs, s1)) :
    ((∀ r ∈ lrs, r.Name ≠ c.config.ClusterRouter) →
      initClusterRouter c.traced (s, [])
        = ((c.ovnClient.CreateLogicalRouter c.config.ClusterRouter s1).1,
           ((c.ovnClient.CreateLogicalRouter c.config.ClusterRouter s1).2,
            [Call.ListLogicalRouter c.config.EnableExternalVpc,
             Call.CreateLogicalRouter c.config.ClusterRouter]))) ∧
    ((∃ r ∈ lrs, r.Name = c.config.ClusterRouter) →
      initClusterRouter c.traced (s, [])
        = (none, (s1, [Call.ListLogicalRouter c.config.EnableExternalVpc]))) ∧
    ((∀ b w, (c.ovnClient.ListLogicalRouter b w).2 = w) →
      (∀ n w w', c.ovnClient.CreateLogicalRouter n w = (none, w') →
        ∃ lrs', (c.ovnClient.ListLogicalRouter c.config.EnableExternalVpc w').1 = Except.ok lrs' ∧
          ∃ r ∈ lrs', r.Name = n) →
      ∀ s2, initClusterRouter c s = (none, s2) →
        initClusterRouter c.traced (s2, [])
          = (none, (s2, [Call.ListLogicalRouter c.config.EnableExternalVpc]))) := by
  refine ⟨?_, ?_, ?_⟩
  · intro hno
    have hf : routerListed c.config.ClusterRouter lrs = false := by
      cases hr : routerListed c.config.ClusterRouter lrs with
      | false => rfl
      | true =>
        obtain ⟨r, hr1, hr2⟩ := (routerListed_iff _ _).mp hr
        exact absurd hr2 (hno r hr1)
    simp [initClusterRouter, Controller.traced, logged, hlist, hf]
  · intro hyes
    have ht := (routerListed_iff _ _).mpr hyes
    simp [initClusterRouter, Controller.traced, logged, hlist, ht]
  · intro hread hadd s2 hrun
    have hs1 : s1 = s := by
      have := hread c.config.EnableExternalVpc s
      rw [hlist] at this
      exact this
    subst hs1
    have second : ∀ lrs', (c.ovnClient.ListLogicalRouter c.config.EnableExternalVpc s2).1
          = Except.ok lrs' → (∃ r ∈ lrs', r.Name = c.config.ClusterRouter) →
        initClusterRouter c.traced (s2, [])
          = (none, (s2, [Call.ListLogicalRouter c.config.EnableExternalVpc])) := by
      intro lrs' hl hin
      have ht := (routerListed_iff _ _).mpr hin
      have h2 := hread c.config.EnableExternalVpc s2
      have hpair : c.ovnClient.ListLogicalRouter c.config.EnableExternalVpc s2
          = (Except.ok lrs', s2) := Prod.ext hl h2
      simp [initClusterRouter, Controller.traced, logged, hpair, ht]
    cases hr : routerListed c.config.ClusterRouter lrs with
    | true =>
      have hrun' : initClusterRouter c s1 = (none, s1) := by
        simp [initClusterRouter, hlist, hr]
      have : s2 = s1 := by
        rw [hrun'] at hrun
        exact (Prod.mk.inj hrun).2.symm
      subst this
      exact second lrs (by rw [hlist]) ((routerListed_iff _ _).mp hr)
    | false =>
      have hrun' : c.ovnClient.CreateLogicalRouter c.config.ClusterRouter s1 = (none, s2) := by
        simpa [initClusterRouter, hlist, hr] using hrun
      obtain ⟨lrs', hl, hin⟩ := hadd _ _ _ hrun'
      exact second lrs' hl hin

end Steps

/-- C3, the code at the failing input: in VLAN mode with the default VLAN id 0,
the provider network `provider` present and no VLAN record, `initDefaultVlan`
reads the provider network and the VLAN, then creates the VLAN record `ovn-vlan`
with `Spec.ID = 0` and returns nil: the id 0 is not rejected. -/
theorem initDefaultVlan_accepts_zero :
    Scenario.config.DefaultVlanID = 0 ∧
    initDefaultVlan Scenario.controller.traced
        ({ Scenario.emptyCluster with
            providerNetworks := [{ Name := "provider", Spec := { DefaultInterface := "eth1" } }] },
         [])
      = (none,
         ({ Scenario.emptyCluster with
            providerNetworks := [{ Name := "provider", Spec := { DefaultInterface := "eth1" } }]
            vlans := [{ Name := "ovn-vlan"
                        Spec := { ID := 0, Provider := "provider", VlanId := 0
                                  ProviderInterfaceName := "" } }] },
          [Call.ListerGetProviderNetwork "provider", Call.ListerGetVlan "ovn-vlan",
           Call.CreateVlan { Name := "ovn-vlan"
                             Spec := { ID := 0, Provider := "provider", VlanId := 0
                                       ProviderInterfaceName := "" } }])) := by
  constructor
  · rfl
  · decide

/-- C8, the code at the failing input: when the creation of `htb-high` is
refused, and when the fetch of `htb-high` fails with an error that is not
not-found while `htb-medium` and `htb-low` exist, `initHtbQos` returns nil and
the cluster it leaves holds `htb-medium` and `htb-low` but no `htb-high`. -/
theorem initHtbQos_swallows_error :
    initHtbQos Scenario.controller
        { Scenario.emptyCluster with createErrors := [("htb-high", GoError.api "admission denied")] }
      = (none,
         { Scenario.emptyCluster with
           createErrors := [("htb-high", GoError.api "admission denied")]
           htbQoses := [{ Kind := "HTBQOS", Name := "htb-medium", Spec := { Priority := "200" } },
                        { Kind := "HTBQOS", Name := "htb-low", Spec := { Priority := "300" } }] }) ∧
    initHtbQos Scenario.controller
        { Scenario.emptyCluster with
          getErrors := [("htb-high", GoError.api "etcd request timed out")]
          htbQoses := [{ Kind := "HTBQOS", Name := "htb-medium", Spec := { Priority := "200" } },
                       { Kind := "HTBQOS", Name := "htb-low", Spec := { Priority := "300" } }] }
      = (none,
         { Scenario.emptyCluster with
           getErrors := [("htb-high", GoError.api "etcd request timed out")]
           htbQoses := [{ Kind := "HTBQOS", Name := "htb-medium", Spec := { Priority := "200" } },
                        { Kind := "HTBQOS", Name := "htb-low", Spec := { Priority := "300" } }] }) := by
  constructor <;> decide

/-- Witness of C10: on the in-memory cluster without router the first run lists
and creates `ovn-cluster`; the second run lists only and changes nothing. -/
theorem initClusterRouter_idempotent_witness :
    initClusterRouter Scenario.controller.traced (Scenario.emptyCluster, [])
      = (none, ({ Scenario.emptyCluster with routers := [{ Name := "ovn-cluster" }] },
          [Call.ListLogicalRouter false, Call.CreateLogicalRouter "ovn-cluster"])) ∧
    initClusterRouter Scenario.controller.traced
        ({ Scenario.emptyCluster with routers := [{ Name := "ovn-cluster" }] }, [])
      = (none, ({ Scenario.emptyCluster with routers := [{ Name := "ovn-cluster" }] },
          [Call.ListLogicalRouter false])) :=
  ⟨(initClusterRouter_idempotent Scenario.controller Scenario.emptyCluster Scenario.emptyCluster []
      rfl).1 (by simp),
   (initClusterRouter_idempotent Scenario.controller Scenario.emptyCluster Scenario.emptyCluster []
      rfl).2.2 (fun _ _ => rfl)
      (fun n w w' h => ⟨w'.routers, rfl, ⟨{ Name := n }, by
        have hw : w' = { w with routers := w.routers ++ [{ Name := n }] } :=
          (Prod.mk.inj h).2.symm
        simp [hw], rfl⟩⟩)
      { Scenario.emptyCluster with routers := [{ Name := "ovn-cluster" }] } rfl⟩

end KubeOvn

/-! ## Theorems on the migrators and on the IP records -/

namespace KubeOvn

/-! ### The schema migrators -/

/-- C11, counterexample: the VLAN record `vlan7` has the legacy and the new
fields set (`VlanId = 5`, `ID = 7`, `ProviderInterfaceName = eth1`,
`Provider = provider`). `initSyncCrdVlans` lists it and issues no update: the
migrated record is the record itself, its legacy fields are not empty and its
`ID` is not the former `VlanId`. -/
theorem syncVlan_keeps_legacy :
    syncVlan Scenario.mixedVlan = Scenario.mixedVlan ∧
    (syncVlan Scenario.mixedVlan).Spec.VlanId = 5 ∧
    (syncVlan Scenario.mixedVlan).Spec.ProviderInterfaceName = "eth1" ∧
    (syncVlan Scenario.mixedVlan).Spec.ID = 7 ∧
    initSyncCrdVlans (memMigration Scenario.SplitStringIP).traced
        (([Scenario.mixedVlan], []), [])
      = (none, (([Scenario.mixedVlan], []), [MigrationCall.ListVlans])) := by
  decide

section Migration

variable {σ : Type}

/-- The migration of a VLAN spec changes nothing on its own output. -/
theorem syncVlanSpec_fixed (spec : kubeovnv1.VlanSpec) :
    syncVlanSpec (syncVlanSpec spec).1 = ((syncVlanSpec spec).1, false) := by
  obtain ⟨id, provider, vlanId, pin⟩ := spec
  by_cases h1 : vlanId ≠ 0 ∧ id = 0 <;> by_cases h2 : pin ≠ "" ∧ provider = "" <;>
    simp [syncVlanSpec, h1, h2]

/-- C11, amended: `initSyncCrdVlans` moves a legacy field only when the new field
is unset. If `ID = 0` the migrated record has `VlanId = 0` and `ID` equal to the
former `VlanId`; if `Provider` is empty it has `ProviderInterfaceName` empty and
`Provider` equal to the former `ProviderInterfaceName`; a pair whose new field
is set is left unchanged, legacy field included. The record handed to `Update`
is the migrated record, and `Update` is called exactly when one of the two pairs
was moved. -/
theorem syncVlan_moves_unset (c : MigrationClients σ) (vlan : kubeovnv1.Vlan) (s : σ) :
    (vlan.Spec.ID = 0 →
      (syncVlan vlan).Spec.VlanId = 0 ∧ (syncVlan vlan).Spec.ID = vlan.Spec.VlanId) ∧
    (vlan.Spec.Provider = "" →
      (syncVlan vlan).Spec.ProviderInterfaceName = "" ∧
        (syncVlan vlan).Spec.Provider = vlan.Spec.ProviderInterfaceName) ∧
    (vlan.Spec.ID ≠ 0 →
      (syncVlan vlan).Spec.ID = vlan.Spec.ID ∧ (syncVlan vlan).Spec.VlanId = vlan.Spec.VlanId) ∧
    (vlan.Spec.Provider ≠ "" →
      (syncVlan vlan).Spec.Provider = vlan.Spec.Provider ∧
        (syncVlan vlan).Spec.ProviderInterfaceName = vlan.Spec.ProviderInterfaceName) ∧
    ((syncVlanSpec vlan.Spec).2 = true ↔
      (vlan.Spec.VlanId ≠ 0 ∧ vlan.Spec.ID = 0) ∨
        (vlan.Spec.ProviderInterfaceName ≠ "" ∧ vlan.Spec.Provider = "")) ∧
    initSyncCrdVlansLoop c.traced [vlan] (s, [])
      = if (syncVlanSpec vlan.Spec).2 then
          ((c.UpdateVlan (syncVlan vlan) s).1,
            ((c.UpdateVlan (syncVlan vlan) s).2, [MigrationCall.UpdateVlan (syncVlan vlan)]))
        else (none, (s, [])) := by
  obtain ⟨name, ⟨id, provider, vlanId, pin⟩⟩ := vlan
  refine ⟨?_, ?_, ?_, ?_, ?_, ?_⟩
  · intro h
    simp only at h
    subst h
    by_cases h1 : vlanId = 0 <;> by_cases h2 : pin ≠ "" ∧ provider = "" <;>
      simp [syncVlan, syncVlanSpec, h1, h2]
  · intro h
    simp only at h
    subst h
    by_cases h1 : vlanId ≠ 0 ∧ id = 0 <;> by_cases h2 : pin = "" <;>
      simp [syncVlan, syncVlanSpec, h1, h2]
  · intro h
    simp only [ne_eq] at h
    by_cases h2 : pin ≠ "" ∧ provider = "" <;> simp [syncVlan, syncVlanSpec, h, h2]
  · intro h
    simp only [ne_eq] at h
    by_cases h1 : vlanId ≠ 0 ∧ id = 0 <;> simp [syncVlan, syncVlanSpec, h, h1]
  · by_cases h1 : vlanId ≠ 0 ∧ id = 0 <;> by_cases h2 : pin ≠ "" ∧ provider = "" <;>
      simp [syncVlanSpec, h1, h2]
  · cases hu : (syncVlanSpec (kubeovnv1.VlanSpec.mk id provider vlanId pin)).2 with
    | false => simp [initSyncCrdVlansLoop, hu]
    | true =>
      simp only [initSyncCrdVlansLoop, hu, if_true, MigrationClients.traced, List.nil_append]
      rcases c.UpdateVlan _ s with ⟨_ | err, s1⟩ <;> rfl

/-- C12: the two migrators are idempotent. The migration of a VLAN spec applied
to its own output returns it unchanged with `needUpdate` false, and an IP record
whose `V4IPAddress` and `V6IPAddress` have been set from the split of
`IPAddress` passes the test that skips the records already split. Hence a pass
of either loop over migrated records calls no client: no update is issued, the
world is unchanged and the pass returns nil. This holds for any clients and any
function `util.SplitStringIP`. -/
theorem migrators_idempotent (c : MigrationClients σ) :
    (∀ spec : kubeovnv1.VlanSpec,
      syncVlanSpec (syncVlanSpec spec).1 = ((syncVlanSpec spec).1, false)) ∧
    (∀ ip : kubeovnv1.IP,
      ipAlreadySplit c.SplitStringIP (syncIP c.SplitStringIP ip).Spec = true ∧
        syncIP c.SplitStringIP (syncIP c.SplitStringIP ip) = syncIP c.SplitStringIP ip) ∧
    (∀ (vlans : List kubeovnv1.Vlan) (s : σ) (log : List MigrationCall),
      initSyncCrdVlansLoop c.traced (vlans.map syncVlan) (s, log) = (none, (s, log))) ∧
    (∀ (ips : List kubeovnv1.IP) (s : σ) (log : List MigrationCall),
      initSyncCrdIPsLoop c.traced (ips.map (syncIP c.SplitStringIP)) (s, log)
        = (none, (s, log))) := by
  have hip : ∀ ip : kubeovnv1.IP,
      ipAlreadySplit c.SplitStringIP (syncIP c.SplitStringIP ip).Spec = true := by
    intro ip
    simp [ipAlreadySplit, syncIP]
  refine ⟨syncVlanSpec_fixed, fun ip => ⟨hip ip, by simp [syncIP]⟩, ?_, ?_⟩
  · intro vlans s log
    induction vlans with
    | nil => rfl
    | cons v rest ih =>
      have hv : (syncVlanSpec (syncVlan v).Spec).2 = false := by
        simp [syncVlan, syncVlanSpec_fixed]
      simp only [List.map_cons, initSyncCrdVlansLoop, hv]
      simpa using ih
  · intro ips s log
    induction ips with
    | nil => rfl
    | cons ip rest ih =>
      have h := hip ip
      have ht : (c.traced).SplitStringIP = c.SplitStringIP := rfl
      simp only [List.map_cons, initSyncCrdIPsLoop, ht, h, if_true]
      exact ih

end Migration

/-- Witness of C11, amended: the record `ovn-vlan`, written with the legacy
fields only, is migrated to `ID = 5`, `Provider = eth1` with the legacy fields
empty, and handed to `Update`. -/
theorem syncVlan_moves_unset_witness :
    ((syncVlan Scenario.legacyVlan).Spec.VlanId = 0 ∧
      (syncVlan Scenario.legacyVlan).Spec.ID = 5) ∧
    ((syncVlan Scenario.legacyVlan).Spec.ProviderInterfaceName = "" ∧
      (syncVlan Scenario.legacyVlan).Spec.Provider = "eth1") ∧
    initSyncCrdVlansLoop (memMigration Scenario.SplitStringIP).traced [Scenario.legacyVlan]
        (([Scenario.legacyVlan], []), [])
      = (none, (([syncVlan Scenario.legacyVlan], []),
          [MigrationCall.UpdateVlan (syncVlan Scenario.legacyVlan)])) :=
  ⟨(syncVlan_moves_unset (memMigration Scenario.SplitStringIP) Scenario.legacyVlan
      ([Scenario.legacyVlan], [])).1 rfl,
   (syncVlan_moves_unset (memMigration Scenario.SplitStringIP) Scenario.legacyVlan
      ([Scenario.legacyVlan], [])).2.1 rfl,
   (syncVlan_moves_unset (memMigration Scenario.SplitStringIP) Scenario.legacyVlan
      ([Scenario.legacyVlan], [])).2.2.2.2.2⟩

/-! ### Lemmas on the requests of an IP record -/

section RequestLemmas

variable {σ : Type}

/-- The loop over `AttachSubnets` from index `i`, with `i` within `AttachIPs` and
`AttachMacs`, is the run of the requests pairing what is left of the three
lists, followed by the report of a mismatch. -/
theorem attachLoop_eq (c : IPRecordClients σ) (ipamKey : String) (ip : kubeovnv1.IP)
    (subnets : List String) (i : Nat) (s : σ)
    (hi : i ≤ ip.Spec.AttachIPs.length) (hm : i ≤ ip.Spec.AttachMacs.length) :
    attachLoop c ipamKey ip subnets i s
      = (runRequests c ip.Name
          (attachRequests ipamKey ip.Name subnets (ip.Spec.AttachIPs.drop i)
            (ip.Spec.AttachMacs.drop i)) s).map
          (reportMismatch c ip.Name subnets (ip.Spec.AttachIPs.drop i)
            (ip.Spec.AttachMacs.drop i)) := by
  induction subnets generalizing i s with
  | nil =>
    simp [attachLoop, attachRequests, runRequests, Except.map, reportMismatch]
  | cons sub rest ih =>
    by_cases hbreak : i = ip.Spec.AttachIPs.length ∨ i = ip.Spec.AttachMacs.length
    · have hreq : attachRequests ipamKey ip.Name (sub :: rest) (ip.Spec.AttachIPs.drop i)
          (ip.Spec.AttachMacs.drop i) = [] := by
        rcases hbreak with h | h
        · rw [h, List.drop_length]; simp [attachRequests]
        · rw [h, List.drop_length]
          cases ip.Spec.AttachIPs.drop ip.Spec.AttachMacs.length <;> simp [attachRequests]
      have hmin : min (ip.Spec.AttachIPs.drop i).length (ip.Spec.AttachMacs.drop i).length
          < (sub :: rest).length := by
        simp only [List.length_drop, List.length_cons]
        rcases hbreak with h | h <;> omega
      rw [hreq]
      simp only [attachLoop, hbreak, if_true, runRequests, Except.map, reportMismatch,
        if_pos hmin]
    · have hi' : i < ip.Spec.AttachIPs.length := by
        have := fun h => hbreak (Or.inl h)
        omega
      have hm' : i < ip.Spec.AttachMacs.length := by
        have := fun h => hbreak (Or.inr h)
        omega
      have hdi : ip.Spec.AttachIPs.drop i
          = ip.Spec.AttachIPs[i] :: ip.Spec.AttachIPs.drop (i + 1) :=
        List.drop_eq_getElem_cons hi'
      have hdm : ip.Spec.AttachMacs.drop i
          = ip.Spec.AttachMacs[i] :: ip.Spec.AttachMacs.drop (i + 1) :=
        List.drop_eq_getElem_cons hm'
      have hrep : reportMismatch c ip.Name (sub :: rest)
            (ip.Spec.AttachIPs[i] :: ip.Spec.AttachIPs.drop (i + 1))
            (ip.Spec.AttachMacs[i] :: ip.Spec.AttachMacs.drop (i + 1))
          = reportMismatch c ip.Name rest (ip.Spec.AttachIPs.drop (i + 1))
            (ip.Spec.AttachMacs.drop (i + 1)) := by
        funext s'
        simp only [reportMismatch, List.length_cons, List.length_drop]
        by_cases hlt : min (ip.Spec.AttachIPs.length - (i + 1))
            (ip.Spec.AttachMacs.length - (i + 1)) < rest.length
        · have : min (ip.Spec.AttachIPs.length - (i + 1) + 1)
              (ip.Spec.AttachMacs.length - (i + 1) + 1) < rest.length + 1 := by omega
          simp [hlt, this]
        · have : ¬ min (ip.Spec.AttachIPs.length - (i + 1) + 1)
              (ip.Spec.AttachMacs.length - (i + 1) + 1) < rest.length + 1 := by omega
          simp [hlt, this]
      rw [hdi, hdm, hrep]
      simp only [attachLoop, hbreak, if_false, List.getElem?_eq_getElem hi',
        List.getElem?_eq_getElem hm', attachRequests, runRequests]
      cases hh : hydrate c ip.Name
          { podName := ipamKey, nicName := ip.Name, ip := ip.Spec.AttachIPs[i]
            mac := ip.Spec.AttachMacs[i], subnetName := sub, checkConflict := false } s with
      | error crash => simp [Except.map]
      | ok s1 => simp [ih (i + 1) s1 hi' hm']

/-- A logged call of the registry does not crash on an index. -/
theorem hydrate_ne_index (c : IPRecordClients σ) (name : String) (req : StaticRequest) (s : σ) :
    hydrate c name req s ≠ Except.error Crash.indexOutOfRange := by
  unfold hydrate
  rcases c.ipam.GetStaticAddress req s with _ | ⟨⟨_, _, _, _ | err⟩, s1⟩ <;> simp

/-- A run of requests does not crash on an index. -/
theorem runRequests_ne_index (c : IPRecordClients σ) (name : String)
    (reqs : List StaticRequest) (s : σ) :
    runRequests c name reqs s ≠ Except.error Crash.indexOutOfRange := by
  induction reqs generalizing s with
  | nil => simp [runRequests]
  | cons req rest ih =>
    simp only [runRequests]
    cases h : hydrate c name req s with
    | error crash =>
      have := hydrate_ne_index c name req s
      rw [h] at this
      simpa using this
    | ok s1 => exact ih s1

/-- A run of requests returns when every call of the registry does. -/
theorem runRequests_total (c : IPRecordClients σ) (name : String)
    (reqs : List StaticRequest) (s : σ)
    (h : ∀ req w, (c.ipam.GetStaticAddress req w).isSome) :
    ∃ s', runRequests c name reqs s = Except.ok s' := by
  induction reqs generalizing s with
  | nil => exact ⟨s, rfl⟩
  | cons req rest ih =>
    have hs := h req s
    simp only [runRequests, hydrate]
    rcases hg : c.ipam.GetStaticAddress req s with _ | ⟨⟨_, _, _, _ | err⟩, s1⟩
    · rw [hg] at hs; cases hs
    · exact ih s1
    · exact ih _

/-- The log of a call of the registry that returns: the call, then the line of
its error if it has one. -/
theorem hydrate_traced (c : IPRecordClients σ) (name : String) (req : StaticRequest) (s s' : σ)
    (log log' : List IPRecordCall)
    (h : hydrate c.traced name req (s, log) = Except.ok (s', log')) :
    hydrate c name req s = Except.ok s' ∧
      ∃ extra, log' = log ++ extra ∧ requestsOf extra = [req] ∧
        ∀ n, IPRecordCall.Errorf (ErrorLine.attachmentInvalid n) ∉ extra := by
  unfold hydrate at h ⊢
  simp only [IPRecordClients.traced] at h
  rcases hg : c.ipam.GetStaticAddress req s with _ | ⟨⟨a, b, m, _ | err⟩, s1⟩
  · simp [hg] at h
  · simp only [hg, Option.map_some'] at h
    obtain ⟨rfl, rfl⟩ := Prod.mk.inj (Except.ok.inj h)
    exact ⟨rfl, [IPRecordCall.GetStaticAddress req], rfl, by simp [requestsOf], by simp⟩
  · simp only [hg, Option.map_some'] at h
    obtain ⟨rfl, rfl⟩ := Prod.mk.inj (Except.ok.inj h)
    refine ⟨rfl, [IPRecordCall.GetStaticAddress req,
      IPRecordCall.Errorf (ErrorLine.initFromIP name err)], by simp, by simp [requestsOf],
      by simp⟩

/-- The requests of two logs put end to end. -/
theorem requestsOf_append (l1 l2 : List IPRecordCall) :
    requestsOf (l1 ++ l2) = requestsOf l1 ++ requestsOf l2 := by
  simp [requestsOf, List.filterMap_append]

/-- The log of a run of requests that returns holds exactly these requests, in
order, and no report of a mismatch. -/
theorem runRequests_traced (c : IPRecordClients σ) (name : String) (reqs : List StaticRequest)
    (s s' : σ) (log log' : List IPRecordCall)
    (h : runRequests c.traced name reqs (s, log) = Except.ok (s', log')) :
    runRequests c name reqs s = Except.ok s' ∧
      ∃ extra, log' = log ++ extra ∧ requestsOf extra = reqs ∧
        ∀ n, IPRecordCall.Errorf (ErrorLine.attachmentInvalid n) ∉ extra := by
  induction reqs generalizing s log with
  | nil =>
    simp only [runRequests] at h ⊢
    obtain ⟨rfl, rfl⟩ := Prod.mk.inj (Except.ok.inj h)
    exact ⟨rfl, [], by simp, rfl, by simp⟩
  | cons req rest ih =>
    simp only [runRequests] at h ⊢
    cases hh : hydrate c.traced name req (s, log) with
    | error crash => rw [hh] at h; cases h
    | ok w =>
      obtain ⟨s1, log1⟩ := w
      rw [hh] at h
      obtain ⟨h1, e1, he1, hr1, hn1⟩ := hydrate_traced c name req s s1 log log1 hh
      obtain ⟨h2, e2, he2, hr2, hn2⟩ := ih s1 log1 h
      refine ⟨by rw [h1]; exact h2, e1 ++ e2, by rw [he2, he1, List.append_assoc], ?_, ?_⟩
      · rw [requestsOf_append, hr1, hr2]; rfl
      · intro n hmem
        rcases List.mem_append.mp hmem with hm | hm
        · exact hn1 n hm
        · exact hn2 n hm

/-- The attachments paired by position are as many as the shortest of the three
lists. -/
theorem attachRequests_length (ipamKey name : String) (subnets ips macs : List String) :
    (attachRequests ipamKey name subnets ips macs).length
      = min subnets.length (min ips.length macs.length) := by
  induction subnets generalizing ips macs with
  | nil => simp [attachRequests]
  | cons sub rest ih =>
    cases ips with
    | nil => simp [attachRequests]
    | cons a as =>
      cases macs with
      | nil => simp [attachRequests]
      | cons m ms =>
        simp only [attachRequests, List.length_cons, ih]
        omega

/-- The request of index `i` is made of the entries of index `i` of the three
lists. -/
theorem attachRequests_getElem? (ipamKey name : String) (subnets ips macs : List String)
    (i : Nat) :
    (attachRequests ipamKey name subnets ips macs)[i]?
      = match subnets[i]?, ips[i]?, macs[i]? with
        | some attachSubnet, some attachIP, some attachMac =>
          some { podName := ipamKey, nicName := name, ip := attachIP, mac := attachMac
                 subnetName := attachSubnet, checkConflict := false }
        | _, _, _ => none := by
  induction subnets generalizing ips macs i with
  | nil => simp [attachRequests]
  | cons sub rest ih =>
    cases ips with
    | nil => simp [attachRequests]
    | cons a as =>
      cases macs with
      | nil =>
        simp only [attachRequests, List.getElem?_nil]
        cases (sub :: rest)[i]? <;> cases (a :: as)[i]? <;> rfl
      | cons m ms =>
        cases i with
        | zero => simp [attachRequests]
        | succ j => simp [attachRequests, ih]

/-- The hydration of a record is the run of the request for its address and of
the requests for its attachments, followed by the report of a mismatch. -/
theorem hydrateRecord_eq (c : IPRecordClients σ) (ipamKey : String) (ip : kubeovnv1.IP) (s : σ) :
    hydrateRecord c ipamKey ip s
      = (runRequests c ip.Name
          ({ podName := ipamKey, nicName := ip.Name, ip := ip.Spec.IPAddress
             mac := ip.Spec.MacAddress, subnetName := ip.Spec.Subnet, checkConflict := false } ::
            attachRequests ipamKey ip.Name ip.Spec.AttachSubnets ip.Spec.AttachIPs
              ip.Spec.AttachMacs) s).map
          (reportMismatch c ip.Name ip.Spec.AttachSubnets ip.Spec.AttachIPs
            ip.Spec.AttachMacs) := by
  simp only [hydrateRecord, runRequests]
  cases hydrate c ip.Name
      { podName := ipamKey, nicName := ip.Name, ip := ip.Spec.IPAddress
        mac := ip.Spec.MacAddress, subnetName := ip.Spec.Subnet, checkConflict := false } s with
  | error crash => rfl
  | ok s1 =>
    have := attachLoop_eq c ipamKey ip ip.Spec.AttachSubnets 0 s1 (Nat.zero_le _) (Nat.zero_le _)
    simpa using this

/-- The log of a hydration that returns: the requests made, and whether the
mismatch was reported. -/
theorem hydrateRecord_traced (c : IPRecordClients σ) (ipamKey : String) (ip : kubeovnv1.IP)
    (s s' : σ) (log : List IPRecordCall)
    (h : hydrateRecord c.traced ipamKey ip (s, []) = Except.ok (s', log)) :
    requestsOf log
        = { podName := ipamKey, nicName := ip.Name, ip := ip.Spec.IPAddress
            mac := ip.Spec.MacAddress, subnetName := ip.Spec.Subnet, checkConflict := false } ::
          attachRequests ipamKey ip.Name ip.Spec.AttachSubnets ip.Spec.AttachIPs
            ip.Spec.AttachMacs ∧
      (IPRecordCall.Errorf (ErrorLine.attachmentInvalid ip.Name) ∈ log ↔
        min ip.Spec.AttachIPs.length ip.Spec.AttachMacs.length
          < ip.Spec.AttachSubnets.length) := by
  rw [hydrateRecord_eq] at h
  cases hr : runRequests c.traced ip.Name
      ({ podName := ipamKey, nicName := ip.Name, ip := ip.Spec.IPAddress
         mac := ip.Spec.MacAddress, subnetName := ip.Spec.Subnet, checkConflict := false } ::
        attachRequests ipamKey ip.Name ip.Spec.AttachSubnets ip.Spec.AttachIPs
          ip.Spec.AttachMacs) (s, []) with
  | error crash => rw [hr] at h; cases h
  | ok w =>
    obtain ⟨s1, log1⟩ := w
    rw [hr] at h
    obtain ⟨_, extra, hlog, hreq, hno⟩ := runRequests_traced c ip.Name _ s s1 [] log1 hr
    simp only [List.nil_append] at hlog
    subst hlog
    simp only [Except.map, reportMismatch] at h
    by_cases hmis : min ip.Spec.AttachIPs.length ip.Spec.AttachMacs.length
        < ip.Spec.AttachSubnets.length
    · rw [if_pos hmis] at h
      simp only [IPRecordClients.traced] at h
      obtain ⟨_, rfl⟩ := Prod.mk.inj (Except.ok.inj h)
      refine ⟨by rw [requestsOf_append, hreq]; simp [requestsOf], ?_⟩
      simp [hmis]
    · rw [if_neg hmis] at h
      obtain ⟨_, rfl⟩ := Prod.mk.inj (Except.ok.inj h)
      exact ⟨hreq, by simp [hmis, hno ip.Name]⟩

end RequestLemmas

/-! ### The IP records in `InitIPAM` -/

/-- After the release of a pod whose nic list every pool clears, the registry
has no address for the pod. -/
theorem GetPodAddress_after_release (ops : PoolOps) (ipam : IPAM) (podName : String)
    (h : ∀ e ∈ ipam.Subnets,
      ((ops.ReleaseAddress e.2 podName).PodToNicList.get? podName).getD [] = []) :
    IPAM.GetPodAddress ops (IPAM.ReleaseAddressByPod ops ipam podName) podName = [] := by
  simp only [IPAM.GetPodAddress, IPAM.ReleaseAddressByPod]
  rw [List.flatMap_eq_nil_iff]
  intro e he
  obtain ⟨e0, he0, rfl⟩ := List.mem_map.mp he
  simp only
  rw [h e0 he0]
  rfl

section IPRecordTheorems

variable {σ : Type}

/-- C13, amended: for an IP record with a namespace whose pod lookup reports
not-found, `InitIPAM` issues the deletion of the record. When the deletion
succeeds it releases the pod `<ns>/<pod>` in the registry, and that is all it
does for the record; when the deletion fails it logs the failure and releases
nothing. In both cases no `GetStaticAddress` is called for the record. Every
other record is hydrated: the code from line 290 on runs with the key
`<ns>/<pod>` when the record has a namespace and with `node-<PodName>` when it
has none, and every request it makes carries that key and the name of the
record, the first being the request for `IPAddress`. For the registry of package
`ipam` the release maps `ReleaseAddress` over every subnet, and when each pool
clears the nic list of the pod, `GetPodAddress` of the pod is then empty. -/
theorem initIPRecord_orphan_or_hydrated (c : IPRecordClients σ) (ip : kubeovnv1.IP) (s : σ) :
    (∀ (err : GoError) (s1 : σ), ip.Spec.Namespace ≠ "" →
      c.GetPod ip.Spec.Namespace ip.Spec.PodName s = (some err, s1) → IsNotFound err = true →
      (∀ s2, c.DeleteIP ip.Name s1 = (none, s2) →
        initIPRecord c.traced ip (s, [])
          = Except.ok
              (c.ipam.ReleaseAddressByPod (ip.Spec.Namespace ++ "/" ++ ip.Spec.PodName) s2,
               [IPRecordCall.GetPod ip.Spec.Namespace ip.Spec.PodName,
                IPRecordCall.DeleteIP ip.Name,
                IPRecordCall.ReleaseAddressByPod
                  (ip.Spec.Namespace ++ "/" ++ ip.Spec.PodName)])) ∧
      (∀ err' s2, c.DeleteIP ip.Name s1 = (some err', s2) →
        initIPRecord c.traced ip (s, [])
          = Except.ok
              (c.Errorf (ErrorLine.deleteIP ip.Name err') s2,
               [IPRecordCall.GetPod ip.Spec.Namespace ip.Spec.PodName,
                IPRecordCall.DeleteIP ip.Name,
                IPRecordCall.Errorf (ErrorLine.deleteIP ip.Name err')]))) ∧
    (∀ (r : Option GoError) (s1 : σ), ip.Spec.Namespace ≠ "" →
      c.GetPod ip.Spec.Namespace ip.Spec.PodName s = (r, s1) →
      (∀ err, r = some err → IsNotFound err = false) →
      initIPRecord c ip s
        = hydrateRecord c (ip.Spec.Namespace ++ "/" ++ ip.Spec.PodName) ip s1) ∧
    (ip.Spec.Namespace = "" →
      initIPRecord c ip s = hydrateRecord c ("node-" ++ ip.Spec.PodName) ip s) ∧
    (∀ (ipamKey : String) (s0 s' : σ) (log : List IPRecordCall),
      hydrateRecord c.traced ipamKey ip (s0, []) = Except.ok (s', log) →
      (requestsOf log).head?
          = some { podName := ipamKey, nicName := ip.Name, ip := ip.Spec.IPAddress
                   mac := ip.Spec.MacAddress, subnetName := ip.Spec.Subnet
                   checkConflict := false } ∧
        ∀ req ∈ requestsOf log, req.podName = ipamKey ∧ req.nicName = ip.Name) ∧
    (∀ (ops : PoolOps) (ipam : IPAM) (podName : String),
      (IPAM.ReleaseAddressByPod ops ipam podName).Subnets
          = ipam.Subnets.map (fun e => (e.1, ops.ReleaseAddress e.2 podName)) ∧
        ((∀ e ∈ ipam.Subnets,
            ((ops.ReleaseAddress e.2 podName).PodToNicList.get? podName).getD [] = []) →
          IPAM.GetPodAddress ops (IPAM.ReleaseAddressByPod ops ipam podName) podName = [])) := by
  refine ⟨?_, ?_, ?_, ?_, ?_⟩
  · intro err s1 hns hget hnf
    refine ⟨?_, ?_⟩
    · intro s2 hdel
      simp [initIPRecord, IPRecordClients.traced, hns, hget, hnf, hdel]
    · intro err' s2 hdel
      simp [initIPRecord, IPRecordClients.traced, hns, hget, hnf, hdel]
  · intro r s1 hns hget hnn
    cases r with
    | none => simp [initIPRecord, hns, hget]
    | some err => simp [initIPRecord, hns, hget, hnn err rfl]
  · intro hns
    simp [initIPRecord, hns]
  · intro ipamKey s0 s' log h
    obtain ⟨hreq, -⟩ := hydrateRecord_traced c ipamKey ip s0 s' log h
    rw [hreq]
    refine ⟨rfl, ?_⟩
    intro req hmem
    rcases List.mem_cons.mp hmem with rfl | hmem
    · exact ⟨rfl, rfl⟩
    · clear hreq h
      generalize ip.Spec.AttachSubnets = subnets at hmem
      generalize ip.Spec.AttachIPs = ips at hmem
      generalize ip.Spec.AttachMacs = macs at hmem
      induction subnets generalizing ips macs with
      | nil => simp [attachRequests] at hmem
      | cons sub rest ih =>
        cases ips with
        | nil => simp [attachRequests] at hmem
        | cons a as =>
          cases macs with
          | nil => simp [attachRequests] at hmem
          | cons m ms =>
            simp only [attachRequests, List.mem_cons] at hmem
            rcases hmem with rfl | hmem
            · exact ⟨rfl, rfl⟩
            · exact ih as ms hmem
  · intro ops ipam podName
    exact ⟨rfl, GetPodAddress_after_release ops ipam podName⟩

/-- C14, amended: the hydration of an IP record does not depend on the three
attach lists having the same length. It first requests the address of the
record, then the attachments paired by position, for the indices below
`min (len AttachSubnets) (min (len AttachIPs) (len AttachMacs))`, in order, and
then logs the mismatch, exactly when `AttachSubnets` is longer than `AttachIPs`
or than `AttachMacs`; only the attachments from that index on are skipped. -/
theorem hydrateRecord_attachments (c : IPRecordClients σ) (ipamKey : String)
    (ip : kubeovnv1.IP) (s : σ) :
    hydrateRecord c ipamKey ip s
        = (runRequests c ip.Name
            ({ podName := ipamKey, nicName := ip.Name, ip := ip.Spec.IPAddress
               mac := ip.Spec.MacAddress, subnetName := ip.Spec.Subnet
               checkConflict := false } ::
              attachRequests ipamKey ip.Name ip.Spec.AttachSubnets ip.Spec.AttachIPs
                ip.Spec.AttachMacs) s).map
            (reportMismatch c ip.Name ip.Spec.AttachSubnets ip.Spec.AttachIPs
              ip.Spec.AttachMacs) ∧
      (attachRequests ipamKey ip.Name ip.Spec.AttachSubnets ip.Spec.AttachIPs
          ip.Spec.AttachMacs).length
        = min ip.Spec.AttachSubnets.length
            (min ip.Spec.AttachIPs.length ip.Spec.AttachMacs.length) ∧
      (∀ (s' : σ) (log : List IPRecordCall),
        hydrateRecord c.traced ipamKey ip (s, []) = Except.ok (s', log) →
        requestsOf log
            = { podName := ipamKey, nicName := ip.Name, ip := ip.Spec.IPAddress
                mac := ip.Spec.MacAddress, subnetName := ip.Spec.Subnet
                checkConflict := false } ::
              attachRequests ipamKey ip.Name ip.Spec.AttachSubnets ip.Spec.AttachIPs
                ip.Spec.AttachMacs ∧
          (IPRecordCall.Errorf (ErrorLine.attachmentInvalid ip.Name) ∈ log ↔
            min ip.Spec.AttachIPs.length ip.Spec.AttachMacs.length
              < ip.Spec.AttachSubnets.length)) ∧
      ((∀ req w, (c.ipam.GetStaticAddress req w).isSome) →
        ∃ s', hydrateRecord c ipamKey ip s = Except.ok s') := by
  refine ⟨hydrateRecord_eq c ipamKey ip s, attachRequests_length _ _ _ _ _,
    fun s' log h => hydrateRecord_traced c ipamKey ip s s' log h, ?_⟩
  intro hsome
  rw [hydrateRecord_eq]
  obtain ⟨s', hs'⟩ := runRequests_total c ip.Name
    ({ podName := ipamKey, nicName := ip.Name, ip := ip.Spec.IPAddress
       mac := ip.Spec.MacAddress, subnetName := ip.Spec.Subnet, checkConflict := false } ::
      attachRequests ipamKey ip.Name ip.Spec.AttachSubnets ip.Spec.AttachIPs
        ip.Spec.AttachMacs) s hsome
  rw [hs']
  exact ⟨_, rfl⟩

/-- C15: the loop over `AttachSubnets` never indexes out of range, whatever the
lengths of the three lists: it does not crash on an index, it is the run of the
requests that pair the three lists by position followed by the report of a
mismatch, and these requests are
`min (len AttachSubnets) (min (len AttachIPs) (len AttachMacs))` in number, the
request of index `i` being made of `AttachIPs[i]`, `AttachMacs[i]` and
`AttachSubnets[i]`, so that every index used is below the three lengths. The
calls of `GetStaticAddress` logged by a run that returns are exactly these
requests in order, and the run returns whenever the registry does. -/
theorem attachLoop_in_bounds (c : IPRecordClients σ) (ipamKey : String) (ip : kubeovnv1.IP)
    (s : σ) :
    attachLoop c ipamKey ip ip.Spec.AttachSubnets 0 s ≠ Except.error Crash.indexOutOfRange ∧
    attachLoop c ipamKey ip ip.Spec.AttachSubnets 0 s
      = (runRequests c ip.Name
          (attachRequests ipamKey ip.Name ip.Spec.AttachSubnets ip.Spec.AttachIPs
            ip.Spec.AttachMacs) s).map
          (reportMismatch c ip.Name ip.Spec.AttachSubnets ip.Spec.AttachIPs
            ip.Spec.AttachMacs) ∧
    (attachRequests ipamKey ip.Name ip.Spec.AttachSubnets ip.Spec.AttachIPs
        ip.Spec.AttachMacs).length
      = min ip.Spec.AttachSubnets.length
          (min ip.Spec.AttachIPs.length ip.Spec.AttachMacs.length) ∧
    (∀ i : Nat,
      (attachRequests ipamKey ip.Name ip.Spec.AttachSubnets ip.Spec.AttachIPs
          ip.Spec.AttachMacs)[i]?
        = match ip.Spec.AttachSubnets[i]?, ip.Spec.AttachIPs[i]?, ip.Spec.AttachMacs[i]? with
          | some attachSubnet, some attachIP, some attachMac =>
            some { podName := ipamKey, nicName := ip.Name, ip := attachIP, mac := attachMac
                   subnetName := attachSubnet, checkConflict := false }
          | _, _, _ => none) ∧
    (∀ i : Nat,
      i < (attachRequests ipamKey ip.Name ip.Spec.AttachSubnets ip.Spec.AttachIPs
          ip.Spec.AttachMacs).length →
      i < ip.Spec.AttachSubnets.length ∧ i < ip.Spec.AttachIPs.length ∧
        i < ip.Spec.AttachMacs.length) ∧
    (∀ (s' : σ) (log : List IPRecordCall),
      attachLoop c.traced ipamKey ip ip.Spec.AttachSubnets 0 (s, []) = Except.ok (s', log) →
      requestsOf log
        = attachRequests ipamKey ip.Name ip.Spec.AttachSubnets ip.Spec.AttachIPs
            ip.Spec.AttachMacs) ∧
    ((∀ req w, (c.ipam.GetStaticAddress req w).isSome) →
      ∃ s', attachLoop c ipamKey ip ip.Spec.AttachSubnets 0 s = Except.ok s') := by
  have heq : ∀ (c' : IPRecordClients σ) (s0 : σ),
      attachLoop c' ipamKey ip ip.Spec.AttachSubnets 0 s0
        = (runRequests c' ip.Name
            (attachRequests ipamKey ip.Name ip.Spec.AttachSubnets ip.Spec.AttachIPs
              ip.Spec.AttachMacs) s0).map
            (reportMismatch c' ip.Name ip.Spec.AttachSubnets ip.Spec.AttachIPs
              ip.Spec.AttachMacs) := by
    intro c' s0
    have := attachLoop_eq c' ipamKey ip ip.Spec.AttachSubnets 0 s0 (Nat.zero_le _)
      (Nat.zero_le _)
    simpa using this
  refine ⟨?_, heq c s, attachRequests_length _ _ _ _ _,
    attachRequests_getElem? _ _ _ _ _, ?_, ?_, ?_⟩
  · rw [heq c s]
    have hne := runRequests_ne_index c ip.Name
      (attachRequests ipamKey ip.Name ip.Spec.AttachSubnets ip.Spec.AttachIPs
        ip.Spec.AttachMacs) s
    cases hr : runRequests c ip.Name
        (attachRequests ipamKey ip.Name ip.Spec.AttachSubnets ip.Spec.AttachIPs
          ip.Spec.AttachMacs) s with
    | error crash =>
      rw [hr] at hne
      simpa [Except.map] using hne
    | ok s1 => simp [Except.map]
  · intro i hlt
    rw [attachRequests_length] at hlt
    omega
  · intro s' log h
    have h' := attachLoop_eq c.traced ipamKey ip ip.Spec.AttachSubnets 0 (s, [])
      (Nat.zero_le _) (Nat.zero_le _)
    simp only [List.drop_zero] at h'
    rw [h'] at h
    cases hr : runRequests c.traced ip.Name
        (attachRequests ipamKey ip.Name ip.Spec.AttachSubnets ip.Spec.AttachIPs
          ip.Spec.AttachMacs) (s, []) with
    | error crash => rw [hr] at h; cases h
    | ok w =>
      obtain ⟨s1, log1⟩ := w
      rw [hr] at h
      obtain ⟨_, extra, hlog, hreq, -⟩ := runRequests_traced c ip.Name _ s s1 [] log1 hr
      simp only [List.nil_append] at hlog
      subst hlog
      simp only [Except.map, reportMismatch] at h
      by_cases hmis : min ip.Spec.AttachIPs.length ip.Spec.AttachMacs.length
          < ip.Spec.AttachSubnets.length
      · rw [if_pos hmis] at h
        simp only [IPRecordClients.traced] at h
        obtain ⟨_, rfl⟩ := Prod.mk.inj (Except.ok.inj h)
        rw [requestsOf_append, hreq]
        simp [requestsOf]
      · rw [if_neg hmis] at h
        obtain ⟨_, rfl⟩ := Prod.mk.inj (Except.ok.inj h)
        exact hreq
  · intro hsome
    rw [heq c s]
    obtain ⟨s', hs'⟩ := runRequests_total c ip.Name
      (attachRequests ipamKey ip.Name ip.Spec.AttachSubnets ip.Spec.AttachIPs
        ip.Spec.AttachMacs) s hsome
    rw [hs']
    exact ⟨_, rfl⟩

end IPRecordTheorems

/-- C13, counterexample: the IP record `p.ns` of pod `ns/p` has a namespace and
the pod lookup reports not-found, but the deletion of the record is refused. The
code logs the failure and goes to the next record: the record is still in the
cluster, the registry is unchanged, and `GetPodAddress` of `ns/p` still returns
its two addresses. -/
theorem orphan_not_released_when_delete_fails :
    Scenario.orphanRecord.Spec.Namespace ≠ "" ∧
    (memIPClients Scenario.ops).GetPod "ns" "p"
        (Scenario.ipStore [Scenario.orphanRecord]
          [("p.ns", GoError.api "the server is unavailable")], Scenario.registryP)
      = (some (GoError.notFound "p"),
          (Scenario.ipStore [Scenario.orphanRecord]
            [("p.ns", GoError.api "the server is unavailable")], Scenario.registryP)) ∧
    ∃ w, initIPRecord (memIPClients Scenario.ops).traced Scenario.orphanRecord
        ((Scenario.ipStore [Scenario.orphanRecord]
          [("p.ns", GoError.api "the server is unavailable")], Scenario.registryP), [])
        = Except.ok w ∧
      w.1.1.ips = [Scenario.orphanRecord] ∧
      w.1.2 = Scenario.registryP ∧
      w.2 = [IPRecordCall.GetPod "ns" "p", IPRecordCall.DeleteIP "p.ns",
             IPRecordCall.Errorf
               (ErrorLine.deleteIP "p.ns" (GoError.api "the server is unavailable"))] ∧
      (IPAM.GetPodAddress Scenario.ops w.1.2 "ns/p").map SubnetAddress.Ip
        = ["10.0.0.2", "fd00::2"] :=
  ⟨by decide, by decide, _, rfl, by decide, by decide, by decide, by decide⟩

/-- Witness of C13, amended: with the deletion accepted, the record `p.ns` is
removed, the pod `ns/p` is released in the registry and no address is left for
it. -/
theorem initIPRecord_orphan_or_hydrated_witness :
    initIPRecord (memIPClients Scenario.ops).traced Scenario.orphanRecord
        ((Scenario.ipStore [Scenario.orphanRecord] [], Scenario.registryP), [])
      = Except.ok
          ((Scenario.ipStore [] [],
            IPAM.ReleaseAddressByPod Scenario.ops Scenario.registryP "ns/p"),
           [IPRecordCall.GetPod "ns" "p", IPRecordCall.DeleteIP "p.ns",
            IPRecordCall.ReleaseAddressByPod "ns/p"]) ∧
    IPAM.GetPodAddress Scenario.ops
        (IPAM.ReleaseAddressByPod Scenario.ops Scenario.registryP "ns/p") "ns/p" = [] :=
  ⟨((initIPRecord_orphan_or_hydrated (memIPClients Scenario.ops) Scenario.orphanRecord
      (Scenario.ipStore [Scenario.orphanRecord] [], Scenario.registryP)).1
      (GoError.notFound "p") _ (by decide) rfl rfl).1 _ rfl,
   ((initIPRecord_orphan_or_hydrated (memIPClients Scenario.ops) Scenario.orphanRecord
      (Scenario.ipStore [Scenario.orphanRecord] [], Scenario.registryP)).2.2.2.2
      Scenario.ops Scenario.registryP "ns/p").2 (by decide)⟩

/-- C14, counterexample: the IP record `node-n1` has two attach subnets, one
attach address and one attach MAC. The code requests its address `10.0.0.2`,
then the attachment of index 0, and only then logs the mismatch: two calls of
`GetStaticAddress` are made for the record and the registry holds both
addresses. -/
theorem mismatched_record_is_hydrated :
    Scenario.mismatchRecord.Spec.AttachSubnets.length = 2 ∧
    Scenario.mismatchRecord.Spec.AttachIPs.length = 1 ∧
    Scenario.mismatchRecord.Spec.AttachMacs.length = 1 ∧
    ∃ w, initIPRecord (memIPClients Scenario.ops).traced Scenario.mismatchRecord
        ((Scenario.ipStore [Scenario.mismatchRecord] [], Scenario.registry), [])
        = Except.ok w ∧
      w.2 = [IPRecordCall.GetStaticAddress
               { podName := "node-n1", nicName := "node-n1", ip := "10.0.0.2", mac := ""
                 subnetName := "s1", checkConflict := false },
             IPRecordCall.GetStaticAddress
               { podName := "node-n1", nicName := "node-n1", ip := "10.0.0.3"
                 mac := "00:00:00:00:00:01", subnetName := "s1", checkConflict := false },
             IPRecordCall.Errorf (ErrorLine.attachmentInvalid "node-n1")] ∧
      IPAM.ContainAddress Scenario.ops w.1.2 "10.0.0.2" = true ∧
      IPAM.ContainAddress Scenario.ops w.1.2 "10.0.0.3" = true :=
  ⟨by decide, by decide, by decide, _, rfl, by decide, by decide, by decide⟩

/-- Witness of C14, amended: the hydration of the record `node-n1`, with its
three attach lists of lengths 2, 1 and 1. -/
theorem hydrateRecord_attachments_witness :
    ∃ w, hydrateRecord (memIPClients Scenario.ops).traced "node-n1" Scenario.mismatchRecord
        ((Scenario.ipStore [Scenario.mismatchRecord] [], Scenario.registry), [])
        = Except.ok w ∧
      requestsOf w.2
        = [{ podName := "node-n1", nicName := "node-n1", ip := "10.0.0.2", mac := ""
             subnetName := "s1", checkConflict := false },
           { podName := "node-n1", nicName := "node-n1", ip := "10.0.0.3"
             mac := "00:00:00:00:00:01", subnetName := "s1", checkConflict := false }] ∧
      IPRecordCall.Errorf (ErrorLine.attachmentInvalid "node-n1") ∈ w.2 :=
  ⟨_, rfl,
   ((hydrateRecord_attachments (memIPClients Scenario.ops) "node-n1" Scenario.mismatchRecord
      (Scenario.ipStore [Scenario.mismatchRecord] [], Scenario.registry)).2.2.1 _ _ rfl).1,
   ((hydrateRecord_attachments (memIPClients Scenario.ops) "node-n1" Scenario.mismatchRecord
      (Scenario.ipStore [Scenario.mismatchRecord] [], Scenario.registry)).2.2.1 _ _ rfl).2.mpr
      (by decide)⟩

/-- Witness of C15: the loop on the record `node-n1`, whose attach lists have
the lengths 2, 1 and 1, makes the single request of index 0. -/
theorem attachLoop_in_bounds_witness :
    (attachRequests "node-n1" "node-n1" ["s1", "s1"] ["10.0.0.3"]
        ["00:00:00:00:00:01"]).length = min 2 (min 1 1) ∧
    ∃ w, attachLoop (memIPClients Scenario.ops).traced "node-n1" Scenario.mismatchRecord
        ["s1", "s1"] 0 ((Scenario.ipStore [Scenario.mismatchRecord] [], Scenario.registry), [])
        = Except.ok w ∧
      requestsOf w.2
        = [{ podName := "node-n1", nicName := "node-n1", ip := "10.0.0.3"
             mac := "00:00:00:00:00:01", subnetName := "s1", checkConflict := false }] :=
  ⟨(attachLoop_in_bounds (memIPClients Scenario.ops) "node-n1" Scenario.mismatchRecord
      (Scenario.ipStore [Scenario.mismatchRecord] [], Scenario.registry)).2.2.1,
   _, rfl,
   (attachLoop_in_bounds (memIPClients Scenario.ops) "node-n1" Scenario.mismatchRecord
      (Scenario.ipStore [Scenario.mismatchRecord] [], Scenario.registry)).2.2.2.2.2.1 _ _ rfl⟩

end KubeOvn
